import Mathlib

/-!
# Verification development for `rdk`

Three source files are embedded:

* `kinematics/joint.go`   : `Joint.Clamp`, `Joint.IsValid`, `Distance`
* `robot/web/web_c.go`    : `webService.addNewStreams`
* `components/camera/fake/camera_test.go` : the RTP passthrough scenario, run
  against a model of the fake camera's subscription registry

Conventions of the embedding:

* a Go slice is a `List`; an index that is out of range panics, which is the
  `none` of `Option`; for `Distance`, which writes through one slice and reads through
  another, a slice is a window into a memory, so that slices of one backing array share
  their elements;
* a `float64` is an element of an ordered field (`ℚ` for the comparisons of
  `Clamp`/`IsValid`, any type with subtraction for `Distance`);
* a Go map is an association list whose order is the iteration order of the
  `range` loop (Go leaves that order unspecified, so theorems quantify over it);
* calls to collaborators that are not part of the embedded files are recorded in
  a trace of events.
-/

namespace Kinematics

/-! ## `kinematics/joint.go` -/

/-- The fields of the Go struct `Joint` that hold plain numeric data. -/
structure Joint where
  dofPosition : Int
  dofVelocity : Int
  max : List ℚ
  min : List ℚ
  offset : List ℚ
  position : List ℚ
  positionD : List ℚ
  positionDD : List ℚ
  wraparound : List Bool
deriving Repr

/-- The method `GetDofPosition`: `len(j.position)`. -/
def Joint.GetDofPosition (j : Joint) : Nat := j.position.length

/-- One iteration of the loop of `Clamp` at index `i` with element `v`: the new value of
`posvec[i]`, or `none` when an index into `wraparound`, `min` or `max` is out of range.
`j.max[i]` is only read when `v < j.min[i]` is false. -/
def Joint.clampAt (j : Joint) (i : Nat) (v : ℚ) : Option ℚ :=
  match j.wraparound[i]? with
  | none => none
  | some true => some v
  | some false =>
    match j.min[i]? with
    | none => none
    | some lo =>
      if v < lo then some lo
      else
        match j.max[i]? with
        | none => none
        | some hi => if v > hi then some hi else some v

/-- The loop `for i, v := range posvec` of `Clamp`, from index `i` on. -/
def Joint.clampFrom (j : Joint) : Nat → List ℚ → Option (List ℚ)
  | _, [] => some []
  | i, v :: rest =>
    match j.clampAt i v with
    | none => none
    | some v1 =>
      match j.clampFrom (i + 1) rest with
      | none => none
      | some rest1 => some (v1 :: rest1)

/-- The method `Clamp`: the slice it returns (which is `posvec`, mutated in place). -/
def Joint.Clamp (j : Joint) (posvec : List ℚ) : Option (List ℚ) :=
  j.clampFrom 0 posvec

/-- The loop `for i := range posvec` of `IsValid`, from index `i` on. The operands of `||`
are read left to right, and `j.max[i]` only when the left operand is false. -/
def Joint.isValidFrom (j : Joint) : Nat → List ℚ → Option Bool
  | _, [] => some true
  | i, p :: rest =>
    match j.min[i]? with
    | none => none
    | some lo =>
      if p < lo then some false
      else
        match j.max[i]? with
        | none => none
        | some hi => if p > hi then some false else j.isValidFrom (i + 1) rest

/-- The method `IsValid`. -/
def Joint.IsValid (j : Joint) (posvec : List ℚ) : Option Bool :=
  j.isValidFrom 0 posvec

/-- A Go slice of `float64` as a window into memory: the address of its first element and its
length. Slices whose windows overlap share those elements, as slices of one backing array
do. -/
structure Slice where
  ptr : Nat
  len : Nat
deriving DecidableEq, Repr

/-- The elements a slice holds in the memory `mem`. -/
def Slice.read {α : Type} (q : Slice) (mem : List α) : List α :=
  (mem.drop q.ptr).take q.len

/-- The loop `for i := 0; i < len(q1); i++ { q1[i] = q1[i] - q2[i] }` of `Distance`, started
at index `i` with `fuel` iterations left, on the memory `mem`: the memory after the loop, or
`none` when `q2[i]` is out of range (or a window lies outside the memory). Each iteration
reads `q1[i]` and `q2[i]` from the memory as the earlier iterations left it and writes
`q1[i]`. -/
def Distance.loop {α : Type} [Sub α] (q1 q2 : Slice) : Nat → Nat → List α → Option (List α)
  | 0, _, mem => some mem
  | fuel + 1, i, mem =>
    if i < q2.len then
      match mem[q1.ptr + i]?, mem[q2.ptr + i]? with
      | some a, some b => Distance.loop q1 q2 fuel (i + 1) (mem.set (q1.ptr + i) (a - b))
      | _, _ => none
    else none

/-- The function `Distance` on the memory `mem`: the value returned and the memory after the
call. `Norm` stands for `floats.Norm` of the gonum library, called on `q1` as the loop left
it, with `L = 2`. -/
def Distance {α : Type} [Sub α] [OfNat α 2] (Norm : List α → α → α) (mem : List α)
    (q1 q2 : Slice) : Option (α × List α) :=
  match Distance.loop q1 q2 q1.len 0 mem with
  | none => none
  | some mem1 => some (Norm (q1.read mem1) 2, mem1)

/-- A joint with one wrap-around axis and limits `[0, 1]`. -/
def wrapJoint : Joint :=
  { dofPosition := 1, dofVelocity := 1, max := [1], min := [0], offset := [0],
    position := [0], positionD := [0], positionDD := [0], wraparound := [true] }

end Kinematics

namespace Web

/-! ## `robot/web/web_c.go`

`webstream.Server` and `gostream.StreamConfig` are declared outside the embedded file. The
server is an abstract state `σ` with the methods and fields that `addNewStreams` uses; every
call into it, and every log line, is recorded as an `Event`. Sources, streams and encoder
factories are handles (`Nat`); a nil pointer or interface is `none`. -/

/-- The fields of `gostream.StreamConfig` that `addNewStreams` sets. -/
structure StreamConfig where
  Name : String
  VideoEncoderFactory : Option Nat
  AudioEncoderFactory : Option Nat
deriving DecidableEq, Repr

/-- The three results of `Server.CreateStream`. -/
structure CreateResult where
  stream : Option Nat
  alreadyRegistered : Bool
  err : Option String
deriving DecidableEq, Repr

/-- The methods and fields of `webstream.Server` used by `addNewStreams`, over a server state
`σ`. `VideoSources` and `AudioSources` are the maps, listed in the order a `range` loop visits
them. -/
structure ServerAPI (σ : Type) where
  RefreshVideoSources : σ → σ
  RefreshAudioSources : σ → σ
  VideoSources : σ → List (String × Nat)
  AudioSources : σ → List (String × Nat)
  CreateStream : StreamConfig → String → σ → CreateResult × σ
  StartVideoStream : Option Nat → Option Nat → σ → σ
  StartAudioStream : Option Nat → Option Nat → σ → σ

/-- The Go struct `StreamServer`. -/
structure StreamServer (σ : Type) where
  Server : Option σ
  HasStreams : Bool

/-- The fields of the Go struct `webService` read by `addNewStreams`; `streamConfig` is
`svc.opts.streamConfig`. -/
structure webService (σ : Type) where
  streamServer : Option (StreamServer σ)
  streamConfig : Option StreamConfig

/-- Which of the two loops of `addNewStreams` made a `CreateStream` call. -/
inductive Media
  | video
  | audio
deriving DecidableEq, Repr

/-- What `addNewStreams` does to its collaborators, in order. `CreateStream` and the two
start events carry the source name of the iteration that made the call. -/
inductive Event
  | Info (msg : String)
  | Warn (msg : String)
  | RefreshVideoSources
  | RefreshAudioSources
  | CreateStream (loop : Media) (config : StreamConfig) (name : String) (res : CreateResult)
  | StartVideoStream (name : String) (source : Option Nat) (stream : Option Nat)
  | StartAudioStream (name : String) (source : Option Nat) (stream : Option Nat)
deriving DecidableEq, Repr

/-- The outcome of a loop or of the whole function: the error returned (`none` is `nil`), the
server state reached and the events produced. -/
structure Outcome (σ : Type) where
  err : Option String
  state : σ
  trace : List Event

/-- The method `streamInitialized`. -/
def webService.streamInitialized {σ : Type} (svc : webService σ) : Bool :=
  match svc.streamServer with
  | none => false
  | some ss => ss.Server.isSome

/-- The loop `for name := range svc.streamServer.Server.VideoSources` over the remaining
names (the keys the map has when the loop starts). `err = some e` is the `return err` inside
the loop; on Windows the first iteration logs a warning and breaks. -/
def videoLoop {σ : Type} (api : ServerAPI σ) (GOOS : String) (sc : StreamConfig) :
    List String → σ → Outcome σ
  | [], s => { err := none, state := s, trace := [] }
  | name :: rest, s =>
    if GOOS = "windows" then
      { err := none, state := s,
        trace := [Event.Warn "video streaming not supported on Windows yet"] }
    else
      let config : StreamConfig :=
        { Name := name, VideoEncoderFactory := sc.VideoEncoderFactory,
          AudioEncoderFactory := none }
      let r := api.CreateStream config name s
      let ev := Event.CreateStream Media.video config name r.1
      if r.1.err ≠ none then
        { err := r.1.err, state := r.2, trace := [ev] }
      else if r.1.alreadyRegistered then
        let o := videoLoop api GOOS sc rest r.2
        { o with trace := ev :: o.trace }
      else
        let source := (api.VideoSources r.2).lookup name
        let s2 := api.StartVideoStream source r.1.stream r.2
        let o := videoLoop api GOOS sc rest s2
        { o with trace := ev :: Event.StartVideoStream name source r.1.stream :: o.trace }

/-- The loop `for name := range svc.streamServer.Server.AudioSources` over the remaining
names. -/
def audioLoop {σ : Type} (api : ServerAPI σ) (sc : StreamConfig) :
    List String → σ → Outcome σ
  | [], s => { err := none, state := s, trace := [] }
  | name :: rest, s =>
    let config : StreamConfig :=
      { Name := name, VideoEncoderFactory := none,
        AudioEncoderFactory := sc.AudioEncoderFactory }
    let r := api.CreateStream config name s
    let ev := Event.CreateStream Media.audio config name r.1
    if r.1.err ≠ none then
      { err := r.1.err, state := r.2, trace := [ev] }
    else if r.1.alreadyRegistered then
      let o := audioLoop api sc rest r.2
      { o with trace := ev :: o.trace }
    else
      let source := (api.AudioSources r.2).lookup name
      let s2 := api.StartAudioStream source r.1.stream r.2
      let o := audioLoop api sc rest s2
      { o with trace := ev :: Event.StartAudioStream name source r.1.stream :: o.trace }

/-- The part of `addNewStreams` after the `streamInitialized` check, on the server state. -/
def addNewStreamsOn {σ : Type} (api : ServerAPI σ) (GOOS : String)
    (streamConfig : Option StreamConfig) (s0 : σ) : Outcome σ :=
  let s1 := api.RefreshVideoSources s0
  let s2 := api.RefreshAudioSources s1
  let pre := [Event.Info "adding new streams", Event.Info "refreshing video and audio sources",
    Event.RefreshVideoSources, Event.RefreshAudioSources]
  match streamConfig with
  | none =>
    if (api.VideoSources s2).length ≠ 0 ∨ (api.AudioSources s2).length ≠ 0 then
      { err := none, state := s2,
        trace := pre ++ [Event.Warn "not starting streams due to no stream config being set"] }
    else
      { err := none, state := s2, trace := pre }
  | some sc =>
    let v := videoLoop api GOOS sc ((api.VideoSources s2).map Prod.fst) s2
    let pre2 := pre ++ Event.Info "starting video and audio streams" :: v.trace
    if v.err ≠ none then
      { err := v.err, state := v.state, trace := pre2 }
    else
      let a := audioLoop api sc ((api.AudioSources v.state).map Prod.fst) v.state
      { err := a.err, state := a.state, trace := pre2 ++ a.trace }

/-- What a call of `addNewStreams` yields: the error returned (`none` is `nil`), the service
afterwards and the events produced. -/
structure Run (σ : Type) where
  err : Option String
  svc : webService σ
  trace : List Event

/-- The method `addNewStreams`. The two `none` branches are the early return taken when
`svc.streamInitialized()` is false. -/
def addNewStreams {σ : Type} (api : ServerAPI σ) (GOOS : String) (svc : webService σ) :
    Run σ :=
  match svc.streamServer with
  | none =>
    { err := none, svc := svc,
      trace := [Event.Info "adding new streams",
        Event.Warn "not starting streams because the stream server is not initialized"] }
  | some ss =>
    match ss.Server with
    | none =>
      { err := none, svc := svc,
        trace := [Event.Info "adding new streams",
          Event.Warn "not starting streams because the stream server is not initialized"] }
    | some s0 =>
      let o := addNewStreamsOn api GOOS svc.streamConfig s0
      { err := o.err,
        svc := { svc with streamServer := some { ss with Server := some o.state } },
        trace := o.trace }

/-! ### Reading a trace -/

/-- The name of a `CreateStream` call made by the given loop. -/
def Event.createdBy (loop : Media) : Event → Option String
  | Event.CreateStream l _ name _ => if l = loop then some name else none
  | _ => none

/-- The name of a `CreateStream` call made by either loop. -/
def Event.attempted : Event → Option String
  | Event.CreateStream _ _ name _ => some name
  | _ => none

/-- The name and stream of a `CreateStream` call of the given loop that returned no error and
`alreadyRegistered = false`. -/
def Event.fresh (loop : Media) : Event → Option (String × Option Nat)
  | Event.CreateStream l _ name r =>
    if l = loop ∧ r.err = none ∧ r.alreadyRegistered = false then some (name, r.stream)
    else none
  | _ => none

/-- The name of a `CreateStream` call of the given loop that returned no error and
`alreadyRegistered = true`. -/
def Event.registered (loop : Media) : Event → Option String
  | Event.CreateStream l _ name r =>
    if l = loop ∧ r.err = none ∧ r.alreadyRegistered = true then some name else none
  | _ => none

/-- The name and stream of a `StartVideoStream` (for `Media.video`) or `StartAudioStream`
(for `Media.audio`) call. -/
def Event.started : Media → Event → Option (String × Option Nat)
  | Media.video, Event.StartVideoStream name _ stream => some (name, stream)
  | Media.audio, Event.StartAudioStream name _ stream => some (name, stream)
  | _, _ => none

/-- The error a `CreateStream` call returned (`none` for `nil` and for any other event). -/
def Event.createErr : Event → Option String
  | Event.CreateStream _ _ _ r => r.err
  | _ => none

/-- The names passed to `CreateStream` by the given loop, in call order. -/
def createdNames (loop : Media) (t : List Event) : List String :=
  t.filterMap (Event.createdBy loop)

/-- The names passed to `CreateStream` by either loop, in call order. -/
def attemptedNames (t : List Event) : List String :=
  t.filterMap Event.attempted

/-- The (name, stream) pairs the given loop created anew, in call order. -/
def freshStreams (loop : Media) (t : List Event) : List (String × Option Nat) :=
  t.filterMap (Event.fresh loop)

/-- The names the given loop found already registered, in call order. -/
def registeredNames (loop : Media) (t : List Event) : List String :=
  t.filterMap (Event.registered loop)

/-- The errors returned by the `CreateStream` calls of a run, in call order. -/
def createErrors (t : List Event) : List String :=
  t.filterMap Event.createErr

/-- The (name, stream) pairs for which a worker of the given kind was started, in call
order. -/
def startedStreams (loop : Media) (t : List Event) : List (String × Option Nat) :=
  t.filterMap (Event.started loop)

/-- The event is a `CreateStream` call of the given loop that returned the error `e`. -/
def Event.failedWith (loop : Media) (e : String) : Event → Bool
  | Event.CreateStream l _ _ r => decide (l = loop) && decide (r.err = some e)
  | _ => false

/-- The keys of `VideoSources` that the video loop ranges over: the map after both refreshes. -/
def videoNames {σ : Type} (api : ServerAPI σ) (s0 : σ) : List String :=
  (api.VideoSources (api.RefreshAudioSources (api.RefreshVideoSources s0))).map Prod.fst

/-- The keys of `AudioSources` that the audio loop ranges over: the map as it is when the
video loop has ended. -/
def audioNames {σ : Type} (api : ServerAPI σ) (GOOS : String) (sc : StreamConfig) (s0 : σ) :
    List String :=
  let s2 := api.RefreshAudioSources (api.RefreshVideoSources s0)
  (api.AudioSources (videoLoop api GOOS sc ((api.VideoSources s2).map Prod.fst) s2).state).map
    Prod.fst

/-! ### The two loops as one

`sourceLoop` is the common shape of the audio loop and of the video loop off Windows; it is
used to state facts about both once. -/

/-- The `StreamConfig` a loop builds for `name`. -/
def Media.config (loop : Media) (sc : StreamConfig) (name : String) : StreamConfig :=
  match loop with
  | Media.video =>
    { Name := name, VideoEncoderFactory := sc.VideoEncoderFactory, AudioEncoderFactory := none }
  | Media.audio =>
    { Name := name, VideoEncoderFactory := none, AudioEncoderFactory := sc.AudioEncoderFactory }

/-- The source map a loop reads. -/
def Media.sources {σ : Type} (loop : Media) (api : ServerAPI σ) : σ → List (String × Nat) :=
  match loop with
  | Media.video => api.VideoSources
  | Media.audio => api.AudioSources

/-- The start method a loop calls. -/
def Media.start {σ : Type} (loop : Media) (api : ServerAPI σ) :
    Option Nat → Option Nat → σ → σ :=
  match loop with
  | Media.video => api.StartVideoStream
  | Media.audio => api.StartAudioStream

/-- The event of a loop's start call. -/
def Media.startEvent (loop : Media) : String → Option Nat → Option Nat → Event :=
  match loop with
  | Media.video => Event.StartVideoStream
  | Media.audio => Event.StartAudioStream

/-- The common shape of the two loops. -/
def sourceLoop {σ : Type} (api : ServerAPI σ) (loop : Media) (sc : StreamConfig) :
    List String → σ → Outcome σ
  | [], s => { err := none, state := s, trace := [] }
  | name :: rest, s =>
    let r := api.CreateStream (loop.config sc name) name s
    let ev := Event.CreateStream loop (loop.config sc name) name r.1
    if r.1.err ≠ none then
      { err := r.1.err, state := r.2, trace := [ev] }
    else if r.1.alreadyRegistered then
      let o := sourceLoop api loop sc rest r.2
      { o with trace := ev :: o.trace }
    else
      let source := (loop.sources api r.2).lookup name
      let o := sourceLoop api loop sc rest (loop.start api source r.1.stream r.2)
      { o with trace := ev :: loop.startEvent name source r.1.stream :: o.trace }

/-- A reading of events that ignores log lines and refreshes. -/
def Silent {β : Type} (f : Event → Option β) : Prop :=
  (∀ m, f (Event.Info m) = none) ∧ (∀ m, f (Event.Warn m) = none)
    ∧ f Event.RefreshVideoSources = none ∧ f Event.RefreshAudioSources = none

/-! ### A stream catalog behind the server -/

/-- Modelled from the spec: the state of `webstream.Server`, which is declared outside the
embedded file. It holds the SourceDirectory (`VideoSources`, `AudioSources`), the
StreamCatalog (`streams`, at most one Stream per name) and the workers started so far. -/
structure Catalog where
  VideoSources : List (String × Nat)
  AudioSources : List (String × Nat)
  streams : List (String × Nat)
  workers : List (Media × Option Nat × Option Nat)
deriving DecidableEq, Repr

/-- Modelled from the spec: `Server.CreateStream`, which is declared outside the embedded
file, after `CreateOrGet` of the StreamCatalog: a name that is already registered yields the
existing Stream and `alreadyRegistered = true`; otherwise a new Stream is constructed and
registered. It fails only on an invalid configuration (`valid config = false`). -/
def Catalog.CreateStream (valid : StreamConfig → Bool) (config : StreamConfig) (name : String)
    (c : Catalog) : CreateResult × Catalog :=
  match c.streams.lookup name with
  | some st => ({ stream := some st, alreadyRegistered := true, err := none }, c)
  | none =>
    if valid config then
      ({ stream := some c.streams.length, alreadyRegistered := false, err := none },
        { c with streams := c.streams ++ [(name, c.streams.length)] })
    else
      ({ stream := none, alreadyRegistered := false, err := some "invalid stream config" }, c)

/-- Modelled from the spec: the server over a `Catalog`. `resVideo` and `resAudio` are the
sources the current resource set yields; a refresh replaces the directory's map by them. A
start call records the worker. -/
def catalogAPI (resVideo resAudio : List (String × Nat)) (valid : StreamConfig → Bool) :
    ServerAPI Catalog where
  RefreshVideoSources := fun c => { c with VideoSources := resVideo }
  RefreshAudioSources := fun c => { c with AudioSources := resAudio }
  VideoSources := fun c => c.VideoSources
  AudioSources := fun c => c.AudioSources
  CreateStream := Catalog.CreateStream valid
  StartVideoStream := fun source stream c =>
    { c with workers := c.workers ++ [(Media.video, source, stream)] }
  StartAudioStream := fun source stream c =>
    { c with workers := c.workers ++ [(Media.audio, source, stream)] }

/-- The names registered in the catalog of a service (none when the server is nil). -/
def registeredIn (svc : webService Catalog) : List String :=
  match svc.streamServer with
  | none => []
  | some ss =>
    match ss.Server with
    | none => []
    | some c => c.streams.map Prod.fst

/-- The workers recorded in the catalog of a service (none when the server is nil). -/
def workersIn (svc : webService Catalog) : List (Media × Option Nat × Option Nat) :=
  match svc.streamServer with
  | none => []
  | some ss =>
    match ss.Server with
    | none => []
    | some c => c.workers

/-! ### Concrete runs -/

/-- An empty catalog. -/
def emptyCatalog : Catalog :=
  { VideoSources := [], AudioSources := [], streams := [], workers := [] }

/-- A service with an initialized stream server over an empty catalog and a stream config. -/
def readySvc : webService Catalog :=
  { streamServer := some { Server := some emptyCatalog, HasStreams := false },
    streamConfig :=
      some { Name := "", VideoEncoderFactory := some 1, AudioEncoderFactory := some 2 } }

/-- A server over a `Catalog` whose source maps are `video` and `audio` in every state. -/
def fixedSourcesAPI (video audio : List (String × Nat)) (valid : StreamConfig → Bool) :
    ServerAPI Catalog :=
  { catalogAPI video audio valid with
    VideoSources := fun _ => video
    AudioSources := fun _ => audio }

/-- A validity check under which `CreateStream` fails for the source named `"bad"` only. -/
def rejectBad (config : StreamConfig) : Bool := config.Name != "bad"

end Web

namespace FakeCamera

/-! ## The fake camera's RTP passthrough registry

`components/camera/fake/camera_test.go` exercises `SubscribeRTP` and `Unsubscribe` of the
fake camera; the camera itself is declared outside the embedded files, so the registry is
modelled from the specification (§3, §4.1) and the test. A subscription ID (a UUID) is a
`Nat`, `uuid.Nil` is `0`, a callback is a handle. -/

/-- Modelled from the spec: the errors of the SubscriptionRegistry, which is declared outside
the embedded files: `FeatureDisabled` (`ErrRTPPassthroughNotEnabled` in the test) and
`NotFound` (`errors.New("id not found")` in the test). -/
inductive Error
  | ErrRTPPassthroughNotEnabled
  | idNotFound
deriving DecidableEq, Repr

/-- Modelled from the spec: the reason a termination signal reports, which is declared
outside the embedded files (`context.Canceled` in the test). -/
inductive ContextError
  | Canceled
deriving DecidableEq, Repr

/-- Modelled from the spec: the part of a Subscription that the caller holds, which is
declared outside the embedded files: its ID. Its termination signal is read off the camera
by `Camera.TerminatedErr`. -/
structure Subscription where
  ID : Nat
deriving DecidableEq, Repr

/-- Modelled from the spec: the well-known sentinel subscription
(`rtppassthrough.NilSubscription` in the test), which is declared outside the embedded files. -/
def NilSubscription : Subscription := { ID := 0 }

/-- The field of the fake camera's `Config` that the passthrough test sets. -/
structure Config where
  RTPPassthrough : Bool
deriving DecidableEq, Repr

/-- Modelled from the spec: the fake camera as a SubscriptionRegistry, which is declared
outside the embedded files. `bufAndCBByID` maps the ID of each Active subscription to its
buffer capacity and callback; `terminated` lists the IDs whose termination signal has fired;
`nextID` is the next fresh ID. -/
structure Camera where
  RTPPassthrough : Bool
  closed : Bool
  bufAndCBByID : List (Nat × Nat × Nat)
  terminated : List Nat
  nextID : Nat
deriving DecidableEq, Repr

/-- Modelled from the spec: `NewCamera`, which is declared outside the embedded files: a
camera with no subscription, with the registry enabled as the config says. -/
def NewCamera (cfg : Config) : Camera :=
  { RTPPassthrough := cfg.RTPPassthrough, closed := false, bufAndCBByID := [],
    terminated := [], nextID := 1 }

/-- Modelled from the spec: `SubscribeRTP`, which is declared outside the embedded files.
With the registry disabled, or after the source was closed, it reports "not enabled" with the
sentinel subscription and allocates nothing; otherwise it registers a subscription under a
fresh ID. -/
def Camera.SubscribeRTP (c : Camera) (bufferSize callback : Nat) :
    (Subscription × Option Error) × Camera :=
  if !c.RTPPassthrough || c.closed then
    ((NilSubscription, some Error.ErrRTPPassthroughNotEnabled), c)
  else
    (({ ID := c.nextID }, none),
      { c with
        bufAndCBByID := (c.nextID, bufferSize, callback) :: c.bufAndCBByID
        nextID := c.nextID + 1 })

/-- Modelled from the spec: `Unsubscribe`, which is declared outside the embedded files. With
the registry disabled it reports "not enabled"; it fails with "not found" when no Active
subscription holds the ID; otherwise it removes the subscription and fires its termination
signal. -/
def Camera.Unsubscribe (c : Camera) (id : Nat) : Option Error × Camera :=
  if !c.RTPPassthrough then (some Error.ErrRTPPassthroughNotEnabled, c)
  else
    match c.bufAndCBByID.lookup id with
    | none => (some Error.idNotFound, c)
    | some _ =>
      (none,
        { c with
          bufAndCBByID := c.bufAndCBByID.filter (fun p => p.1 != id)
          terminated := id :: c.terminated })

/-- Modelled from the spec: `Close` (`CloseAll` of the registry), which is declared outside
the embedded files: every Active subscription is terminated and later subscriptions are
refused. -/
def Camera.Close (c : Camera) : Camera :=
  { c with
    closed := true
    bufAndCBByID := []
    terminated := c.bufAndCBByID.map Prod.fst ++ c.terminated }

/-- Modelled from the spec: `sub.Terminated.Err()` for the subscription with the given ID,
which is declared outside the embedded files: `none` (nil) until the termination signal has
fired, `Canceled` afterwards. -/
def Camera.TerminatedErr (c : Camera) (id : Nat) : Option ContextError :=
  if id ∈ c.terminated then some ContextError.Canceled else none

end FakeCamera


/-! # Theorems -/

namespace Kinematics

theorem Distance.loop_spec {α : Type} [Sub α] (orig : List α) (q1 q2 : Slice)
    (h1 : q1.ptr + q1.len ≤ orig.length) (h2 : q2.ptr + q2.len ≤ orig.length)
    (hle : q1.len ≤ q2.len)
    (hdisj : q1.ptr + q1.len ≤ q2.ptr ∨ q2.ptr + q2.len ≤ q1.ptr) :
    ∀ (fuel i : Nat) (mem : List α), i + fuel = q1.len → mem.length = orig.length →
      (∀ k, q1.ptr + i ≤ k ∨ k < q1.ptr → mem[k]? = orig[k]?) →
      ∃ memF, Distance.loop q1 q2 fuel i mem = some memF
        ∧ memF.length = orig.length
        ∧ (∀ j, i ≤ j → j < q1.len → ∀ a b, orig[q1.ptr + j]? = some a →
            orig[q2.ptr + j]? = some b → memF[q1.ptr + j]? = some (a - b))
        ∧ (∀ k, k < q1.ptr + i ∨ q1.ptr + q1.len ≤ k → memF[k]? = mem[k]?) := by
  intro fuel
  induction fuel with
  | zero =>
    intro i mem hi hl _
    exact ⟨mem, rfl, hl, fun j h1 h2 => by omega, fun _ _ => rfl⟩
  | succ n ih =>
    intro i mem hi hl hsame
    have hi1 : i < q1.len := by omega
    have hi2 : i < q2.len := by omega
    have ha : mem[q1.ptr + i]? = orig[q1.ptr + i]? := hsame _ (Or.inl (le_refl _))
    have hb : mem[q2.ptr + i]? = orig[q2.ptr + i]? := hsame _ (by omega)
    have hlt1 : q1.ptr + i < orig.length := by omega
    have hlt2 : q2.ptr + i < orig.length := by omega
    rw [Distance.loop, if_pos hi2, ha, hb, List.getElem?_eq_getElem hlt1,
      List.getElem?_eq_getElem hlt2]
    simp only
    obtain ⟨memF, hF, hlen, hnew, hold⟩ := ih (i + 1)
      (mem.set (q1.ptr + i) (orig[q1.ptr + i] - orig[q2.ptr + i]))
      (by omega) (by simpa using hl)
      (fun k hk => by
        rw [List.getElem?_set_ne (by omega)]
        exact hsame k (by omega))
    refine ⟨memF, hF, hlen, ?_, ?_⟩
    · intro j hj1 hj2 a b hja hjb
      by_cases hji : j = i
      · subst hji
        rw [hold _ (Or.inl (by omega)), List.getElem?_set_self (by omega)]
        rw [List.getElem?_eq_getElem hlt1] at hja
        rw [List.getElem?_eq_getElem hlt2] at hjb
        cases hja; cases hjb; rfl
      · exact hnew j (by omega) hj2 a b hja hjb
    · intro k hk
      rw [hold k (by omega), List.getElem?_set_ne (by omega)]

theorem Distance.read_after {α : Type} [Sub α] (orig memF : List α) (q1 q2 : Slice)
    (h1 : q1.ptr + q1.len ≤ orig.length) (h2 : q2.ptr + q2.len ≤ orig.length)
    (hle : q1.len ≤ q2.len) (hlen : memF.length = orig.length)
    (hnew : ∀ j, 0 ≤ j → j < q1.len → ∀ a b, orig[q1.ptr + j]? = some a →
        orig[q2.ptr + j]? = some b → memF[q1.ptr + j]? = some (a - b)) :
    q1.read memF = List.zipWith (fun a b => a - b) (q1.read orig) (q2.read orig) := by
  apply List.ext_getElem?
  intro j
  simp only [Slice.read, List.getElem?_zipWith, List.getElem?_take, List.getElem?_drop]
  by_cases hj : j < q1.len
  · have hj2 : j < q2.len := by omega
    have hlt1 : q1.ptr + j < orig.length := by omega
    have hlt2 : q2.ptr + j < orig.length := by omega
    rw [hnew j (Nat.zero_le _) hj _ _
      (List.getElem?_eq_getElem hlt1) (List.getElem?_eq_getElem hlt2)]
    simp only [if_pos hj, if_pos hj2, List.getElem?_eq_getElem hlt1,
      List.getElem?_eq_getElem hlt2]
  · simp only [if_neg hj]

/-- For slices that do not overlap in memory the claim of the doc comment holds: over the
reals, with `floats.Norm(s, 2)` the square root of the sum of the squares of `s`, `Distance`
on two slices of equal length returns `sqrt(Σ (q1[i] - q2[i])^2)` of the values they hold
before the call. -/
theorem Distance_eq_l2_norm_of_disjoint (Norm : List ℝ → ℝ → ℝ)
    (hNorm : ∀ s : List ℝ, Norm s 2 = Real.sqrt ((s.map (fun x => x ^ 2)).sum))
    (mem : List ℝ) (q1 q2 : Slice) (hlen : q1.len = q2.len)
    (h1 : q1.ptr + q1.len ≤ mem.length) (h2 : q2.ptr + q2.len ≤ mem.length)
    (hdisj : q1.ptr + q1.len ≤ q2.ptr ∨ q2.ptr + q2.len ≤ q1.ptr) :
    ∃ mem1, Distance Norm mem q1 q2
      = some (Real.sqrt ((List.zipWith (fun a b => (a - b) ^ 2) (q1.read mem)
          (q2.read mem)).sum), mem1) := by
  obtain ⟨memF, hF, hl, hnew, -⟩ := Distance.loop_spec mem q1 q2 h1 h2 (by omega) hdisj
    q1.len 0 mem (by simp) rfl (fun _ _ => rfl)
  refine ⟨memF, ?_⟩
  unfold Distance
  rw [hF]
  simp only [hNorm]
  rw [Distance.read_after mem memF q1 q2 h1 h2 (by omega) hl hnew, List.map_zipWith]

/-- C7, the code at the failing input. The backing array is `s = [1, 2, 4]`, `q1 = s[1:3]`
holds `[2, 4]` and `q2 = s[0:2]` holds `[1, 2]`, two vectors of equal length whose difference
has L2 norm `sqrt 5`. The first iteration writes `q1[0] = 1`, which is `q2[1]`, so the second
computes `4 - 1`; `Distance` returns `sqrt 10` and leaves `[1, 1, 3]` in the array. -/
theorem Distance_overlapping_slices :
    Slice.read { ptr := 1, len := 2 } ([1, 2, 4] : List ℝ) = [2, 4]
      ∧ Slice.read { ptr := 0, len := 2 } ([1, 2, 4] : List ℝ) = [1, 2]
      ∧ Real.sqrt ((List.zipWith (fun a b => (a - b) ^ 2) ([2, 4] : List ℝ) [1, 2]).sum)
          = Real.sqrt 5
      ∧ Distance (fun (s : List ℝ) (_ : ℝ) => Real.sqrt ((s.map (fun x => x ^ 2)).sum))
          [1, 2, 4] { ptr := 1, len := 2 } { ptr := 0, len := 2 }
        = some (Real.sqrt 10, [1, 1, 3])
      ∧ Real.sqrt 10 ≠ Real.sqrt 5 := by
  refine ⟨rfl, rfl, ?_, ?_, ?_⟩
  · norm_num
  · simp only [Distance, Distance.loop, Slice.read]
    norm_num
  · intro h
    have := (Real.sqrt_inj (by norm_num) (by norm_num)).mp h
    norm_num at this

theorem clampFrom_isValidFrom (j : Joint) :
    ∀ (posvec : List ℚ) (k : Nat),
      (∀ i, i < posvec.length → j.wraparound[k + i]? = some false) →
      (∀ i, i < posvec.length →
        ∃ lo hi, j.min[k + i]? = some lo ∧ j.max[k + i]? = some hi ∧ lo ≤ hi) →
      ∃ out, j.clampFrom k posvec = some out ∧ j.isValidFrom k out = some true := by
  intro posvec
  induction posvec with
  | nil => intro k _ _; exact ⟨[], rfl, rfl⟩
  | cons v rest ih =>
    intro k hw hlim
    obtain ⟨out, ho, hv⟩ := ih (k + 1)
      (fun i hi => by
        have := hw (i + 1) (by simpa using hi)
        rwa [show k + (i + 1) = k + 1 + i by omega] at this)
      (fun i hi => by
        have := hlim (i + 1) (by simpa using hi)
        rwa [show k + (i + 1) = k + 1 + i by omega] at this)
    have hw0 := hw 0 (by simp)
    obtain ⟨lo, hi, hlo, hhi, hle⟩ := hlim 0 (by simp)
    simp only [Nat.add_zero] at hw0 hlo hhi
    by_cases h1 : v < lo
    · refine ⟨lo :: out, ?_, ?_⟩
      · simp [Joint.clampFrom, Joint.clampAt, hw0, hlo, h1, ho]
      · simp [Joint.isValidFrom, hlo, hhi, hv, not_lt.mpr hle]
    · by_cases h2 : v > hi
      · refine ⟨hi :: out, ?_, ?_⟩
        · simp [Joint.clampFrom, Joint.clampAt, hw0, hlo, hhi, h1, h2, ho]
        · simp [Joint.isValidFrom, hlo, hhi, hv, not_lt.mpr hle]
      · refine ⟨v :: out, ?_, ?_⟩
        · simp [Joint.clampFrom, Joint.clampAt, hw0, hlo, hhi, h1, h2, ho]
        · simp [Joint.isValidFrom, hlo, hhi, hv, h1, h2]

/-- On the axes that do not wrap around, `Clamp` does keep the limits: when no index of
`posvec` is a wrap-around axis and `min[i] <= max[i]` there, `Clamp` returns a vector that
`IsValid` accepts. -/
theorem Clamp_isValid_of_no_wraparound (j : Joint) (posvec : List ℚ)
    (hw : ∀ i, i < posvec.length → j.wraparound[i]? = some false)
    (hlim : ∀ i, i < posvec.length →
      ∃ lo hi, j.min[i]? = some lo ∧ j.max[i]? = some hi ∧ lo ≤ hi) :
    ∃ out, j.Clamp posvec = some out ∧ j.IsValid out = some true :=
  clampFrom_isValidFrom j posvec 0 (by simpa using hw) (by simpa using hlim)

/-- C6, the code at the failing input. The joint `wrapJoint` has one wrap-around axis with
limits `min = [0] <= max = [1]` and `dofPosition = 1`; `Clamp([5])` returns `[5]`, which
exceeds the upper limit, and `IsValid` rejects it. -/
theorem Clamp_wraparound_exceeds_limits :
    wrapJoint.min = [0] ∧ wrapJoint.max = [1] ∧ wrapJoint.wraparound = [true]
      ∧ ([5] : List ℚ).length ≤ wrapJoint.dofPosition
      ∧ ([5] : List ℚ).length ≤ wrapJoint.GetDofPosition
      ∧ wrapJoint.Clamp [5] = some [5]
      ∧ wrapJoint.IsValid [5] = some false := by
  decide

end Kinematics

namespace Web

theorem videoLoop_eq_sourceLoop {σ : Type} (api : ServerAPI σ) (GOOS : String)
    (sc : StreamConfig) (hos : GOOS ≠ "windows") (names : List String) (s : σ) :
    videoLoop api GOOS sc names s = sourceLoop api Media.video sc names s := by
  induction names generalizing s with
  | nil => rfl
  | cons name rest ih =>
    simp only [videoLoop, sourceLoop, if_neg hos, ih]
    rfl

theorem audioLoop_eq_sourceLoop {σ : Type} (api : ServerAPI σ)
    (sc : StreamConfig) (names : List String) (s : σ) :
    audioLoop api sc names s = sourceLoop api Media.audio sc names s := by
  induction names generalizing s with
  | nil => rfl
  | cons name rest ih =>
    simp only [audioLoop, sourceLoop, ih]
    rfl

theorem videoLoop_windows {σ : Type} (api : ServerAPI σ) (sc : StreamConfig)
    (names : List String) (s : σ) :
    (videoLoop api "windows" sc names s).err = none
      ∧ (videoLoop api "windows" sc names s).state = s
      ∧ ∀ ev ∈ (videoLoop api "windows" sc names s).trace,
          ev = Event.Warn "video streaming not supported on Windows yet" := by
  cases names with
  | nil => simp [videoLoop]
  | cons name rest => simp [videoLoop]

section loopFacts
variable {σ : Type} (api : ServerAPI σ) (k : Media) (sc : StreamConfig)

@[simp] theorem createdBy_create (k l : Media) (c : StreamConfig) (n : String)
    (r : CreateResult) :
    Event.createdBy k (Event.CreateStream l c n r) = if l = k then some n else none := rfl

@[simp] theorem attempted_create (l : Media) (c : StreamConfig) (n : String)
    (r : CreateResult) : Event.attempted (Event.CreateStream l c n r) = some n := rfl

@[simp] theorem fresh_create (k l : Media) (c : StreamConfig) (n : String) (r : CreateResult) :
    Event.fresh k (Event.CreateStream l c n r)
      = if l = k ∧ r.err = none ∧ r.alreadyRegistered = false then some (n, r.stream)
        else none := rfl

@[simp] theorem registered_create (k l : Media) (c : StreamConfig) (n : String)
    (r : CreateResult) :
    Event.registered k (Event.CreateStream l c n r)
      = if l = k ∧ r.err = none ∧ r.alreadyRegistered = true then some n else none := rfl

@[simp] theorem started_create (k l : Media) (c : StreamConfig) (n : String)
    (r : CreateResult) : Event.started k (Event.CreateStream l c n r) = none := by
  cases k <;> rfl

@[simp] theorem startEvent_started (k k2 : Media) (n : String) (src st : Option Nat) :
    Event.started k2 (k.startEvent n src st) = if k2 = k then some (n, st) else none := by
  cases k <;> cases k2 <;> simp [Media.startEvent, Event.started]

@[simp] theorem startEvent_createdBy (k k2 : Media) (n : String) (src st : Option Nat) :
    Event.createdBy k2 (k.startEvent n src st) = none := by
  cases k <;> rfl

@[simp] theorem startEvent_attempted (k : Media) (n : String) (src st : Option Nat) :
    Event.attempted (k.startEvent n src st) = none := by
  cases k <;> rfl

@[simp] theorem startEvent_fresh (k k2 : Media) (n : String) (src st : Option Nat) :
    Event.fresh k2 (k.startEvent n src st) = none := by
  cases k <;> rfl

@[simp] theorem startEvent_registered (k k2 : Media) (n : String) (src st : Option Nat) :
    Event.registered k2 (k.startEvent n src st) = none := by
  cases k <;> rfl

theorem sourceLoop_created (names : List String) (s : σ) :
    createdNames k (sourceLoop api k sc names s).trace <+: names
      ∧ ((sourceLoop api k sc names s).err = none →
          createdNames k (sourceLoop api k sc names s).trace = names) := by
  induction names generalizing s with
  | nil => simp [sourceLoop, createdNames]
  | cons name rest ih =>
    simp only [sourceLoop]
    split_ifs with h1 h2
    · refine ⟨?_, fun h => absurd h h1⟩
      simp [createdNames, List.prefix_cons_inj]
    · have := ih (api.CreateStream (k.config sc name) name s).2
      simpa [createdNames, List.prefix_cons_inj] using this
    · have := ih (k.start api ((k.sources api (api.CreateStream (k.config sc name) name s).2).lookup name)
        (api.CreateStream (k.config sc name) name s).1.stream
        (api.CreateStream (k.config sc name) name s).2)
      simpa [createdNames, List.prefix_cons_inj] using this

theorem sourceLoop_attempted (names : List String) (s : σ) :
    attemptedNames (sourceLoop api k sc names s).trace
      = createdNames k (sourceLoop api k sc names s).trace := by
  induction names generalizing s with
  | nil => simp [sourceLoop, createdNames, attemptedNames]
  | cons name rest ih =>
    simp only [sourceLoop]
    split_ifs with h1 h2
    · simp [createdNames, attemptedNames]
    · have := ih (api.CreateStream (k.config sc name) name s).2
      simpa [createdNames, attemptedNames] using this
    · have := ih (k.start api ((k.sources api (api.CreateStream (k.config sc name) name s).2).lookup name)
        (api.CreateStream (k.config sc name) name s).1.stream
        (api.CreateStream (k.config sc name) name s).2)
      simpa [createdNames, attemptedNames] using this

theorem sourceLoop_other (k2 : Media) (hk : k2 ≠ k) (names : List String) (s : σ) :
    createdNames k2 (sourceLoop api k sc names s).trace = []
      ∧ startedStreams k2 (sourceLoop api k sc names s).trace = []
      ∧ freshStreams k2 (sourceLoop api k sc names s).trace = []
      ∧ registeredNames k2 (sourceLoop api k sc names s).trace = [] := by
  have hk2 : ¬ k = k2 := fun h => hk h.symm
  induction names generalizing s with
  | nil => simp [sourceLoop, createdNames, startedStreams, freshStreams, registeredNames]
  | cons name rest ih =>
    simp only [sourceLoop]
    split_ifs with h1 h2
    · simp [createdNames, startedStreams, freshStreams, registeredNames, hk2]
    · have := ih (api.CreateStream (k.config sc name) name s).2
      simpa [createdNames, startedStreams, freshStreams, registeredNames, hk2] using this
    · have := ih (k.start api ((k.sources api (api.CreateStream (k.config sc name) name s).2).lookup name)
        (api.CreateStream (k.config sc name) name s).1.stream
        (api.CreateStream (k.config sc name) name s).2)
      simpa [createdNames, startedStreams, freshStreams, registeredNames, hk2, hk] using this

theorem sourceLoop_started (names : List String) (s : σ) :
    startedStreams k (sourceLoop api k sc names s).trace
      = freshStreams k (sourceLoop api k sc names s).trace := by
  induction names generalizing s with
  | nil => simp [sourceLoop, startedStreams, freshStreams]
  | cons name rest ih =>
    simp only [sourceLoop]
    split_ifs with h1 h2
    · simp [startedStreams, freshStreams, h1]
    · have := ih (api.CreateStream (k.config sc name) name s).2
      simpa [startedStreams, freshStreams, h2] using this
    · have := ih (k.start api ((k.sources api (api.CreateStream (k.config sc name) name s).2).lookup name)
        (api.CreateStream (k.config sc name) name s).1.stream
        (api.CreateStream (k.config sc name) name s).2)
      have h1' : (api.CreateStream (k.config sc name) name s).1.err = none := by
        simpa using h1
      simpa [startedStreams, freshStreams, h2, h1'] using this

theorem sourceLoop_err (names : List String) (s : σ) (e : String)
    (he : (sourceLoop api k sc names s).err = some e) :
    ∃ ev, (sourceLoop api k sc names s).trace.getLast? = some ev ∧ ev.failedWith k e = true := by
  induction names generalizing s with
  | nil => simp [sourceLoop] at he
  | cons name rest ih =>
    simp only [sourceLoop] at he ⊢
    split_ifs at he ⊢ with h1 h2
    · exact ⟨_, rfl, by simpa [Event.failedWith] using he⟩
    · obtain ⟨ev, h, hf⟩ := ih _ he
      refine ⟨ev, ?_, hf⟩
      simp only [List.getLast?_cons, h]
      rfl
    · obtain ⟨ev, h, hf⟩ := ih _ he
      refine ⟨ev, ?_, hf⟩
      simp only [List.getLast?_cons, h]
      rfl

end loopFacts

theorem silent_createdBy (k : Media) : Silent (Event.createdBy k) :=
  ⟨fun _ => rfl, fun _ => rfl, rfl, rfl⟩

theorem silent_attempted : Silent Event.attempted :=
  ⟨fun _ => rfl, fun _ => rfl, rfl, rfl⟩

theorem silent_fresh (k : Media) : Silent (Event.fresh k) :=
  ⟨fun _ => rfl, fun _ => rfl, rfl, rfl⟩

theorem silent_registered (k : Media) : Silent (Event.registered k) :=
  ⟨fun _ => rfl, fun _ => rfl, rfl, rfl⟩

theorem silent_started (k : Media) : Silent (Event.started k) := by
  cases k <;> exact ⟨fun _ => rfl, fun _ => rfl, rfl, rfl⟩

section runFacts
variable {σ : Type} (api : ServerAPI σ) (GOOS : String)

/-- The trace of a run with a stream config, read through a silent projection: the video
loop's part, then the audio loop's part when the video loop returned no error. -/
theorem addNewStreamsOn_filterMap {β : Type} (f : Event → Option β) (hf : Silent f)
    (sc : StreamConfig) (s0 : σ) :
    (addNewStreamsOn api GOOS (some sc) s0).trace.filterMap f
      = (videoLoop api GOOS sc (videoNames api s0)
            (api.RefreshAudioSources (api.RefreshVideoSources s0))).trace.filterMap f
        ++ if (videoLoop api GOOS sc (videoNames api s0)
            (api.RefreshAudioSources (api.RefreshVideoSources s0))).err = none then
          (audioLoop api sc (audioNames api GOOS sc s0)
            (videoLoop api GOOS sc (videoNames api s0)
              (api.RefreshAudioSources (api.RefreshVideoSources s0))).state).trace.filterMap f
          else [] := by
  obtain ⟨h1, h2, h3, h4⟩ := hf
  by_cases h : (videoLoop api GOOS sc
      (List.map Prod.fst (api.VideoSources (api.RefreshAudioSources (api.RefreshVideoSources s0))))
      (api.RefreshAudioSources (api.RefreshVideoSources s0))).err = none
  · simp [addNewStreamsOn, videoNames, audioNames, h, List.filterMap_cons, h1, h3, h4]
  · simp [addNewStreamsOn, videoNames, audioNames, h, List.filterMap_cons, h1, h3, h4]

theorem addNewStreamsOn_none_filterMap {β : Type} (f : Event → Option β) (hf : Silent f)
    (s0 : σ) : (addNewStreamsOn api GOOS none s0).trace.filterMap f = [] := by
  obtain ⟨h1, h2, h3, h4⟩ := hf
  simp only [addNewStreamsOn]
  split_ifs <;> simp [List.filterMap_cons, h1, h2, h3, h4]

theorem addNewStreams_uninit_filterMap {β : Type} (f : Event → Option β) (hf : Silent f)
    (svc : webService σ) (h : svc.streamInitialized = false) :
    (addNewStreams api GOOS svc).trace.filterMap f = [] ∧ (addNewStreams api GOOS svc).err = none
      ∧ (addNewStreams api GOOS svc).svc = svc := by
  obtain ⟨h1, h2, h3, h4⟩ := hf
  unfold addNewStreams
  unfold webService.streamInitialized at h
  cases hs : svc.streamServer with
  | none => simp [List.filterMap_cons, h1, h2]
  | some ss =>
    rw [hs] at h
    cases hv : ss.Server with
    | none => simp [hv, List.filterMap_cons, h1, h2]
    | some s0 => simp [hv] at h

theorem addNewStreams_init (svc : webService σ) (ss : StreamServer σ) (s0 : σ)
    (hinit : svc.streamServer = some ss) (hsrv : ss.Server = some s0) :
    (addNewStreams api GOOS svc).err = (addNewStreamsOn api GOOS svc.streamConfig s0).err
      ∧ (addNewStreams api GOOS svc).trace = (addNewStreamsOn api GOOS svc.streamConfig s0).trace
      ∧ (addNewStreams api GOOS svc).svc
          = { svc with streamServer := some { ss with
                Server := some (addNewStreamsOn api GOOS svc.streamConfig s0).state } } := by
  unfold addNewStreams
  simp [hinit, hsrv]

end runFacts

theorem fresh_sublist_created (k : Media) (t : List Event) :
    List.Sublist ((freshStreams k t).map Prod.fst) (createdNames k t) := by
  induction t with
  | nil => simp [freshStreams, createdNames]
  | cons ev t ih =>
    simp only [freshStreams, createdNames] at ih ⊢
    cases ev with
    | CreateStream l c n r =>
      by_cases hl : l = k
      · by_cases hr : r.err = none ∧ r.alreadyRegistered = false
        · simpa [List.filterMap_cons, hl, hr] using ih
        · simpa [List.filterMap_cons, hl, hr] using List.Sublist.cons _ ih
      · simpa [List.filterMap_cons, hl] using ih
    | Info m => exact ih
    | Warn m => exact ih
    | RefreshVideoSources => exact ih
    | RefreshAudioSources => exact ih
    | StartVideoStream a b c => exact ih
    | StartAudioStream a b c => exact ih

theorem registered_sublist_created (k : Media) (t : List Event) :
    List.Sublist (registeredNames k t) (createdNames k t) := by
  induction t with
  | nil => simp [registeredNames, createdNames]
  | cons ev t ih =>
    simp only [registeredNames, createdNames] at ih ⊢
    cases ev with
    | CreateStream l c n r =>
      by_cases hl : l = k
      · by_cases hr : r.err = none ∧ r.alreadyRegistered = true
        · simpa [List.filterMap_cons, hl, hr] using ih
        · simpa [List.filterMap_cons, hl, hr] using List.Sublist.cons _ ih
      · simpa [List.filterMap_cons, hl] using ih
    | Info m => exact ih
    | Warn m => exact ih
    | RefreshVideoSources => exact ih
    | RefreshAudioSources => exact ih
    | StartVideoStream a b c => exact ih
    | StartAudioStream a b c => exact ih

theorem sourceLoop_registered_not_fresh {σ : Type} (api : ServerAPI σ) (k : Media)
    (sc : StreamConfig) (names : List String) (hnd : names.Nodup) (s : σ) :
    ∀ n ∈ registeredNames k (sourceLoop api k sc names s).trace,
      n ∉ (freshStreams k (sourceLoop api k sc names s).trace).map Prod.fst := by
  induction names generalizing s with
  | nil => simp [sourceLoop, registeredNames]
  | cons name rest ih =>
    obtain ⟨hname, hrest⟩ := List.nodup_cons.mp hnd
    have hsubF : ∀ s1, ∀ n ∈ (freshStreams k (sourceLoop api k sc rest s1).trace).map Prod.fst,
        n ∈ rest := fun s1 n hn =>
      (sourceLoop_created api k sc rest s1).1.sublist.subset
        ((fresh_sublist_created k _).subset hn)
    have hsubR : ∀ s1, ∀ n ∈ registeredNames k (sourceLoop api k sc rest s1).trace,
        n ∈ rest := fun s1 n hn =>
      (sourceLoop_created api k sc rest s1).1.sublist.subset
        ((registered_sublist_created k _).subset hn)
    simp only [sourceLoop]
    split_ifs with h1 h2
    · simp [registeredNames, h1]
    · have h1' : (api.CreateStream (k.config sc name) name s).1.err = none := by simpa using h1
      intro n hn
      have hn' : n = name ∨
          n ∈ registeredNames k
            (sourceLoop api k sc rest (api.CreateStream (k.config sc name) name s).2).trace := by
        simpa [registeredNames, List.filterMap_cons, h1', h2] using hn
      have hgoal : freshStreams k
          (Event.CreateStream k (k.config sc name) name
              (api.CreateStream (k.config sc name) name s).1 ::
            (sourceLoop api k sc rest (api.CreateStream (k.config sc name) name s).2).trace)
          = freshStreams k
            (sourceLoop api k sc rest (api.CreateStream (k.config sc name) name s).2).trace := by
        simp [freshStreams, List.filterMap_cons, h2]
      rw [hgoal]
      rcases hn' with rfl | hn'
      · exact fun h => hname (hsubF _ _ h)
      · exact ih hrest _ n hn'
    · have h1' : (api.CreateStream (k.config sc name) name s).1.err = none := by simpa using h1
      have h2' : (api.CreateStream (k.config sc name) name s).1.alreadyRegistered = false := by
        simpa using h2
      intro n hn
      have hn' : n ∈ registeredNames k (sourceLoop api k sc rest
          (k.start api ((k.sources api (api.CreateStream (k.config sc name) name s).2).lookup name)
            (api.CreateStream (k.config sc name) name s).1.stream
            (api.CreateStream (k.config sc name) name s).2)).trace := by
        simpa [registeredNames, List.filterMap_cons, h1', h2'] using hn
      have hne : n ≠ name := by
        rintro rfl
        exact hname (hsubR _ _ hn')
      have := ih hrest _ n hn'
      simpa [freshStreams, List.filterMap_cons, h1', h2', hne] using this

section runFacts2
variable {σ : Type} (api : ServerAPI σ) (GOOS : String)

theorem addNewStreamsOn_err (sc : StreamConfig) (s0 : σ) :
    (addNewStreamsOn api GOOS (some sc) s0).err
      = if (videoLoop api GOOS sc (videoNames api s0)
            (api.RefreshAudioSources (api.RefreshVideoSources s0))).err = none then
          (audioLoop api sc (audioNames api GOOS sc s0)
            (videoLoop api GOOS sc (videoNames api s0)
              (api.RefreshAudioSources (api.RefreshVideoSources s0))).state).err
        else (videoLoop api GOOS sc (videoNames api s0)
            (api.RefreshAudioSources (api.RefreshVideoSources s0))).err := by
  by_cases h : (videoLoop api GOOS sc
      (List.map Prod.fst (api.VideoSources (api.RefreshAudioSources (api.RefreshVideoSources s0))))
      (api.RefreshAudioSources (api.RefreshVideoSources s0))).err = none
  · simp [addNewStreamsOn, videoNames, audioNames, h]
  · simp [addNewStreamsOn, videoNames, audioNames, h]

theorem addNewStreamsOn_trace (sc : StreamConfig) (s0 : σ) :
    ∃ pre : List Event, (addNewStreamsOn api GOOS (some sc) s0).trace
      = pre ++ (videoLoop api GOOS sc (videoNames api s0)
            (api.RefreshAudioSources (api.RefreshVideoSources s0))).trace
        ++ if (videoLoop api GOOS sc (videoNames api s0)
            (api.RefreshAudioSources (api.RefreshVideoSources s0))).err = none then
          (audioLoop api sc (audioNames api GOOS sc s0)
            (videoLoop api GOOS sc (videoNames api s0)
              (api.RefreshAudioSources (api.RefreshVideoSources s0))).state).trace
          else [] := by
  refine ⟨[Event.Info "adding new streams", Event.Info "refreshing video and audio sources",
    Event.RefreshVideoSources, Event.RefreshAudioSources,
    Event.Info "starting video and audio streams"], ?_⟩
  by_cases h : (videoLoop api GOOS sc
      (List.map Prod.fst (api.VideoSources (api.RefreshAudioSources (api.RefreshVideoSources s0))))
      (api.RefreshAudioSources (api.RefreshVideoSources s0))).err = none
  · simp [addNewStreamsOn, videoNames, audioNames, h]
  · simp [addNewStreamsOn, videoNames, audioNames, h]

theorem videoLoop_windows_filterMap {β : Type} (f : Event → Option β) (hf : Silent f)
    (sc : StreamConfig) (names : List String) (s : σ) :
    (videoLoop api "windows" sc names s).trace.filterMap f = [] := by
  rw [List.filterMap_eq_nil_iff]
  intro ev hev
  rw [(videoLoop_windows api sc names s).2.2 ev hev]
  exact hf.2.1 _

end runFacts2

/-- What one loop contributes to the trace of a run: either nothing, or the part of the trace
written by that loop run over the keys of its source map in some server state. -/
theorem run_reads {σ : Type} (api : ServerAPI σ) (GOOS : String) (svc : webService σ)
    (k : Media) :
    (createdNames k (addNewStreams api GOOS svc).trace = []
        ∧ startedStreams k (addNewStreams api GOOS svc).trace = []
        ∧ freshStreams k (addNewStreams api GOOS svc).trace = []
        ∧ registeredNames k (addNewStreams api GOOS svc).trace = [])
      ∨ ∃ (sc : StreamConfig) (s1 s : σ),
          createdNames k (addNewStreams api GOOS svc).trace
              = createdNames k
                  (sourceLoop api k sc ((k.sources api s1).map Prod.fst) s).trace
            ∧ startedStreams k (addNewStreams api GOOS svc).trace
              = startedStreams k
                  (sourceLoop api k sc ((k.sources api s1).map Prod.fst) s).trace
            ∧ freshStreams k (addNewStreams api GOOS svc).trace
              = freshStreams k
                  (sourceLoop api k sc ((k.sources api s1).map Prod.fst) s).trace
            ∧ registeredNames k (addNewStreams api GOOS svc).trace
              = registeredNames k
                  (sourceLoop api k sc ((k.sources api s1).map Prod.fst) s).trace := by
  by_cases hi : svc.streamInitialized = false
  · left
    exact ⟨(addNewStreams_uninit_filterMap api GOOS _ (silent_createdBy k) svc hi).1,
      (addNewStreams_uninit_filterMap api GOOS _ (silent_started k) svc hi).1,
      (addNewStreams_uninit_filterMap api GOOS _ (silent_fresh k) svc hi).1,
      (addNewStreams_uninit_filterMap api GOOS _ (silent_registered k) svc hi).1⟩
  obtain ⟨ss, s0, hinit, hsrv⟩ : ∃ ss s0, svc.streamServer = some ss ∧ ss.Server = some s0 := by
    unfold webService.streamInitialized at hi
    cases hs : svc.streamServer with
    | none => simp [hs] at hi
    | some ss =>
      cases hv : ss.Server with
      | none => simp [hs, hv] at hi
      | some s0 => exact ⟨ss, s0, rfl, hv⟩
  obtain ⟨-, htrace, -⟩ := addNewStreams_init api GOOS svc ss s0 hinit hsrv
  rw [htrace]
  cases hcfg : svc.streamConfig with
  | none =>
    left
    exact ⟨addNewStreamsOn_none_filterMap api GOOS _ (silent_createdBy k) s0,
      addNewStreamsOn_none_filterMap api GOOS _ (silent_started k) s0,
      addNewStreamsOn_none_filterMap api GOOS _ (silent_fresh k) s0,
      addNewStreamsOn_none_filterMap api GOOS _ (silent_registered k) s0⟩
  | some sc =>
    simp only [createdNames, startedStreams, freshStreams, registeredNames]
    rw [addNewStreamsOn_filterMap api GOOS _ (silent_createdBy k),
      addNewStreamsOn_filterMap api GOOS _ (silent_started k),
      addNewStreamsOn_filterMap api GOOS _ (silent_fresh k),
      addNewStreamsOn_filterMap api GOOS _ (silent_registered k)]
    rw [audioLoop_eq_sourceLoop]
    cases k with
    | video =>
      have ho := sourceLoop_other api Media.audio sc Media.video (by decide)
        (audioNames api GOOS sc s0)
        (videoLoop api GOOS sc (videoNames api s0)
          (api.RefreshAudioSources (api.RefreshVideoSources s0))).state
      simp only [createdNames, startedStreams, freshStreams, registeredNames] at ho
      rw [ho.1, ho.2.1, ho.2.2.1, ho.2.2.2]
      simp only [ite_self, List.append_nil]
      by_cases hos : GOOS = "windows"
      · subst hos
        left
        exact ⟨videoLoop_windows_filterMap api _ (silent_createdBy _) sc _ _,
          videoLoop_windows_filterMap api _ (silent_started _) sc _ _,
          videoLoop_windows_filterMap api _ (silent_fresh _) sc _ _,
          videoLoop_windows_filterMap api _ (silent_registered _) sc _ _⟩
      · right
        rw [videoLoop_eq_sourceLoop api GOOS sc hos]
        exact ⟨sc, api.RefreshAudioSources (api.RefreshVideoSources s0),
          api.RefreshAudioSources (api.RefreshVideoSources s0), rfl, rfl, rfl, rfl⟩
    | audio =>
      have hv : ∀ {β : Type} (f : Event → Option β), Silent f →
          (∀ names s, (sourceLoop api Media.video sc names s).trace.filterMap f = []) →
          (videoLoop api GOOS sc (videoNames api s0)
            (api.RefreshAudioSources (api.RefreshVideoSources s0))).trace.filterMap f = [] := by
        intro β f hf hs
        by_cases hos : GOOS = "windows"
        · subst hos
          exact videoLoop_windows_filterMap api f hf sc _ _
        · rw [videoLoop_eq_sourceLoop api GOOS sc hos]
          exact hs _ _
      have ho := fun names s =>
        sourceLoop_other api Media.video sc Media.audio (by decide) names s
      simp only [createdNames, startedStreams, freshStreams, registeredNames] at ho
      rw [hv _ (silent_createdBy _) (fun n s => (ho n s).1),
        hv _ (silent_started _) (fun n s => (ho n s).2.1),
        hv _ (silent_fresh _) (fun n s => (ho n s).2.2.1),
        hv _ (silent_registered _) (fun n s => (ho n s).2.2.2)]
      simp only [List.nil_append]
      by_cases he : (videoLoop api GOOS sc (videoNames api s0)
          (api.RefreshAudioSources (api.RefreshVideoSources s0))).err = none
      · right
        simp only [he, if_true]
        exact ⟨sc, _, _, rfl, rfl, rfl, rfl⟩
      · left
        simp only [he, if_false, and_self]

theorem createErr_create (l : Media) (c : StreamConfig) (n : String) (r : CreateResult) :
    Event.createErr (Event.CreateStream l c n r) = r.err := rfl

theorem startEvent_createErr (k : Media) (n : String) (src st : Option Nat) :
    Event.createErr (k.startEvent n src st) = none := by
  cases k <;> rfl

theorem silent_createErr : Silent Event.createErr :=
  ⟨fun _ => rfl, fun _ => rfl, rfl, rfl⟩

/-- The errors returned by the `CreateStream` calls of a loop are the error the loop returns:
none when it returns `nil`, exactly one otherwise. -/
theorem sourceLoop_createErrors {σ : Type} (api : ServerAPI σ) (k : Media)
    (sc : StreamConfig) (names : List String) (s : σ) :
    createErrors (sourceLoop api k sc names s).trace
      = (sourceLoop api k sc names s).err.toList := by
  induction names generalizing s with
  | nil => simp [sourceLoop, createErrors]
  | cons name rest ih =>
    simp only [sourceLoop]
    split_ifs with h1 h2
    · obtain ⟨e, he⟩ := Option.ne_none_iff_exists'.mp h1
      simp [createErrors, List.filterMap_cons, createErr_create, he]
    · have h1' : (api.CreateStream (k.config sc name) name s).1.err = none := by simpa using h1
      have := ih (api.CreateStream (k.config sc name) name s).2
      simpa [createErrors, List.filterMap_cons, createErr_create, h1'] using this
    · have h1' : (api.CreateStream (k.config sc name) name s).1.err = none := by simpa using h1
      have := ih (k.start api
        ((k.sources api (api.CreateStream (k.config sc name) name s).2).lookup name)
        (api.CreateStream (k.config sc name) name s).1.stream
        (api.CreateStream (k.config sc name) name s).2)
      simpa [createErrors, List.filterMap_cons, createErr_create, startEvent_createErr,
        h1'] using this

/-- In every run of `addNewStreams`, the errors returned by its `CreateStream` calls are the
error the run returns: none when it returns `nil`, exactly one otherwise. -/
theorem run_createErrors {σ : Type} (api : ServerAPI σ) (GOOS : String)
    (svc : webService σ) :
    createErrors (addNewStreams api GOOS svc).trace = (addNewStreams api GOOS svc).err.toList := by
  by_cases hi : svc.streamInitialized = false
  · obtain ⟨h1, h2, -⟩ :=
      addNewStreams_uninit_filterMap api GOOS _ silent_createErr svc hi
    rw [createErrors, h1, h2]
    rfl
  obtain ⟨ss, s0, hinit, hsrv⟩ : ∃ ss s0, svc.streamServer = some ss ∧ ss.Server = some s0 := by
    unfold webService.streamInitialized at hi
    cases hs : svc.streamServer with
    | none => simp [hs] at hi
    | some ss =>
      cases hv : ss.Server with
      | none => simp [hs, hv] at hi
      | some s0 => exact ⟨ss, s0, rfl, hv⟩
  obtain ⟨herr, htrace, -⟩ := addNewStreams_init api GOOS svc ss s0 hinit hsrv
  rw [herr, htrace]
  cases hcfg : svc.streamConfig with
  | none =>
    rw [createErrors, addNewStreamsOn_none_filterMap api GOOS _ silent_createErr s0]
    have : (addNewStreamsOn api GOOS none s0).err = none := by
      simp only [addNewStreamsOn]
      split_ifs <;> rfl
    rw [this]
    rfl
  | some sc =>
    rw [createErrors, addNewStreamsOn_filterMap api GOOS _ silent_createErr,
      addNewStreamsOn_err, audioLoop_eq_sourceLoop]
    have hv : (videoLoop api GOOS sc (videoNames api s0)
        (api.RefreshAudioSources (api.RefreshVideoSources s0))).trace.filterMap
          Event.createErr
        = (videoLoop api GOOS sc (videoNames api s0)
          (api.RefreshAudioSources (api.RefreshVideoSources s0))).err.toList := by
      by_cases hos : GOOS = "windows"
      · subst hos
        rw [videoLoop_windows_filterMap api _ silent_createErr,
          (videoLoop_windows api sc _ _).1]
        rfl
      · rw [videoLoop_eq_sourceLoop api GOOS sc hos]
        exact sourceLoop_createErrors api Media.video sc _ _
    have ha := sourceLoop_createErrors api Media.audio sc (audioNames api GOOS sc s0)
      (videoLoop api GOOS sc (videoNames api s0)
        (api.RefreshAudioSources (api.RefreshVideoSources s0))).state
    simp only [createErrors] at ha
    rw [hv, ha]
    by_cases he : (videoLoop api GOOS sc (videoNames api s0)
        (api.RefreshAudioSources (api.RefreshVideoSources s0))).err = none
    · simp [he]
    · simp [he]

/-- When the errors of the `CreateStream` calls of a trace are the error returned, and an
error returned is that of the last event, a failed `CreateStream` call is the last event and
its error is the one returned. -/
theorem nothing_after_failure (t : List Event) (err : Option String)
    (hf : createErrors t = err.toList)
    (hl : ∀ e, err = some e → ∃ ev, t.getLast? = some ev ∧ ev.createErr = some e)
    (pre : List Event) (ev : Event) (post : List Event) (e : String)
    (ht : t = pre ++ ev :: post) (he : ev.createErr = some e) :
    post = [] ∧ err = some e := by
  subst ht
  simp only [createErrors, List.filterMap_append, List.filterMap_cons, he] at hf
  cases err with
  | none =>
    have := congrArg List.length hf
    simp at this
  | some e2 =>
    have hlen := congrArg List.length hf
    simp only [List.length_append, List.length_cons, Option.toList, List.length_singleton,
      List.length_nil] at hlen
    have hpre : (List.filterMap Event.createErr pre) = [] :=
      List.length_eq_zero.mp (by omega)
    have hpost : (List.filterMap Event.createErr post) = [] :=
      List.length_eq_zero.mp (by omega)
    rw [hpre, hpost] at hf
    have hee : e = e2 := by simpa [Option.toList] using hf
    subst hee
    refine ⟨?_, rfl⟩
    by_contra hne
    obtain ⟨ev2, hlast, hev2⟩ := hl e rfl
    have hx : post.getLast? = some (post.getLast hne) := List.getLast?_eq_getLast post hne
    rw [List.getLast?_append, List.getLast?_cons, hx] at hlast
    simp only [Option.getD_some, Option.or_some, Option.some.injEq] at hlast
    have hmem : ev2 ∈ post := hlast ▸ List.getLast_mem hne
    have : e ∈ List.filterMap Event.createErr post :=
      List.mem_filterMap.mpr ⟨ev2, hmem, hev2⟩
    rw [hpost] at this
    cases this

theorem failedWith_createErr (k : Media) (e : String) (ev : Event)
    (h : ev.failedWith k e = true) : ev.createErr = some e := by
  cases ev with
  | CreateStream l c n r =>
    simp only [Event.failedWith, Bool.and_eq_true, decide_eq_true_eq] at h
    exact h.2
  | Info m => cases h
  | Warn m => cases h
  | RefreshVideoSources => cases h
  | RefreshAudioSources => cases h
  | StartVideoStream a b c => cases h
  | StartAudioStream a b c => cases h

theorem run_started_eq_fresh {σ : Type} (api : ServerAPI σ) (GOOS : String)
    (svc : webService σ) (k : Media) :
    startedStreams k (addNewStreams api GOOS svc).trace
      = freshStreams k (addNewStreams api GOOS svc).trace := by
  rcases run_reads api GOOS svc k with ⟨-, h2, h3, -⟩ | ⟨sc, s1, s, -, h2, h3, -⟩
  · rw [h2, h3]
  · rw [h2, h3, sourceLoop_started]

theorem sources_nodup {σ : Type} (api : ServerAPI σ)
    (hV : ∀ s, ((api.VideoSources s).map Prod.fst).Nodup)
    (hA : ∀ s, ((api.AudioSources s).map Prod.fst).Nodup) (k : Media) (s : σ) :
    ((k.sources api s).map Prod.fst).Nodup := by
  cases k
  · exact hV s
  · exact hA s

/-- C1 (amended). Off Windows, with the stream server initialized and a stream config set,
`addNewStreams` visits the video names and then the audio names in iteration order and stops
at the first `CreateStream` error, which it returns: the names for which `CreateStream` was
attempted are a prefix of the video names followed by the audio names, all of them when no
error is returned; a `CreateStream` call that returns an error is the last event of the run
(no later source is created or started) and its error is the error the run returns; an error
the run returns is that of its last event, a failed `CreateStream` call; and in each loop a
worker is started exactly for the streams that were newly created. -/
theorem addNewStreams_returns_first_error {σ : Type} (api : ServerAPI σ) (GOOS : String)
    (svc : webService σ) (ss : StreamServer σ) (s0 : σ) (sc : StreamConfig)
    (hinit : svc.streamServer = some ss) (hsrv : ss.Server = some s0)
    (hcfg : svc.streamConfig = some sc) (hos : GOOS ≠ "windows") :
    attemptedNames (addNewStreams api GOOS svc).trace
        <+: videoNames api s0 ++ audioNames api GOOS sc s0
      ∧ ((addNewStreams api GOOS svc).err = none →
          attemptedNames (addNewStreams api GOOS svc).trace
            = videoNames api s0 ++ audioNames api GOOS sc s0)
      ∧ (∀ e, (addNewStreams api GOOS svc).err = some e →
          ∃ ev, (addNewStreams api GOOS svc).trace.getLast? = some ev
            ∧ (ev.failedWith Media.video e = true ∨ ev.failedWith Media.audio e = true))
      ∧ (∀ pre ev post e, (addNewStreams api GOOS svc).trace = pre ++ ev :: post →
          ev.createErr = some e →
          post = [] ∧ (addNewStreams api GOOS svc).err = some e)
      ∧ ∀ k, startedStreams k (addNewStreams api GOOS svc).trace
          = freshStreams k (addNewStreams api GOOS svc).trace := by
  have h :
      attemptedNames (addNewStreams api GOOS svc).trace
          <+: videoNames api s0 ++ audioNames api GOOS sc s0
        ∧ ((addNewStreams api GOOS svc).err = none →
            attemptedNames (addNewStreams api GOOS svc).trace
              = videoNames api s0 ++ audioNames api GOOS sc s0)
        ∧ (∀ e, (addNewStreams api GOOS svc).err = some e →
            ∃ ev, (addNewStreams api GOOS svc).trace.getLast? = some ev
              ∧ (ev.failedWith Media.video e = true ∨ ev.failedWith Media.audio e = true)) := by
    obtain ⟨herr, htrace, -⟩ := addNewStreams_init api GOOS svc ss s0 hinit hsrv
    rw [herr, htrace, hcfg]
    have hatt := addNewStreamsOn_filterMap api GOOS Event.attempted silent_attempted sc s0
    obtain ⟨pre, htr⟩ := addNewStreamsOn_trace api GOOS sc s0
    have he := addNewStreamsOn_err api GOOS sc s0
    simp only [attemptedNames]
    rw [hatt, he, htr]
    rw [videoLoop_eq_sourceLoop api GOOS sc hos, audioLoop_eq_sourceLoop]
    have hv := sourceLoop_created api Media.video sc (videoNames api s0)
      (api.RefreshAudioSources (api.RefreshVideoSources s0))
    have hva := sourceLoop_attempted api Media.video sc (videoNames api s0)
      (api.RefreshAudioSources (api.RefreshVideoSources s0))
    have ha := sourceLoop_created api Media.audio sc (audioNames api GOOS sc s0)
      (sourceLoop api Media.video sc (videoNames api s0)
        (api.RefreshAudioSources (api.RefreshVideoSources s0))).state
    have haa := sourceLoop_attempted api Media.audio sc (audioNames api GOOS sc s0)
      (sourceLoop api Media.video sc (videoNames api s0)
        (api.RefreshAudioSources (api.RefreshVideoSources s0))).state
    simp only [attemptedNames, createdNames] at hv hva ha haa
    by_cases h : (sourceLoop api Media.video sc (videoNames api s0)
        (api.RefreshAudioSources (api.RefreshVideoSources s0))).err = none
    · simp only [h, if_true]
      rw [hva, haa, hv.2 h]
      refine ⟨(List.prefix_append_right_inj _).mpr ha.1, fun h2 => by rw [ha.2 h2], ?_⟩
      intro e hE
      obtain ⟨ev, hl, hf⟩ := sourceLoop_err api Media.audio sc _ _ e hE
      exact ⟨ev, by rw [List.getLast?_append, hl]; rfl, Or.inr hf⟩
    · simp only [h, if_false, List.append_nil]
      rw [hva]
      refine ⟨hv.1.trans (List.prefix_append _ _), fun h2 => h2.elim, ?_⟩
      intro e hE
      obtain ⟨ev, hl, hf⟩ := sourceLoop_err api Media.video sc _ _ e hE
      exact ⟨ev, by rw [List.getLast?_append, hl]; rfl, Or.inl hf⟩
  have hlast : ∀ e, (addNewStreams api GOOS svc).err = some e →
      ∃ ev, (addNewStreams api GOOS svc).trace.getLast? = some ev ∧ ev.createErr = some e := by
    intro e he
    obtain ⟨ev, hl, hf⟩ := h.2.2 e he
    exact ⟨ev, hl, hf.elim (failedWith_createErr _ _ _) (failedWith_createErr _ _ _)⟩
  exact ⟨h.1, h.2.1, h.2.2,
    nothing_after_failure _ _ (run_createErrors api GOOS svc) hlast,
    run_started_eq_fresh api GOOS svc⟩

/-- C1, witness: the theorem at the run over the sources `bad`, `good` (video) and `mic`
(audio), where `CreateStream` fails for `bad`. -/
theorem addNewStreams_returns_first_error_witness :
    attemptedNames (addNewStreams (catalogAPI [("bad", 0), ("good", 1)] [("mic", 2)] rejectBad)
        "linux" readySvc).trace
      <+: videoNames (catalogAPI [("bad", 0), ("good", 1)] [("mic", 2)] rejectBad) emptyCatalog
        ++ audioNames (catalogAPI [("bad", 0), ("good", 1)] [("mic", 2)] rejectBad) "linux"
          { Name := "", VideoEncoderFactory := some 1, AudioEncoderFactory := some 2 }
          emptyCatalog :=
  (addNewStreams_returns_first_error
    (catalogAPI [("bad", 0), ("good", 1)] [("mic", 2)] rejectBad) "linux" readySvc
    { Server := some emptyCatalog, HasStreams := false } emptyCatalog
    { Name := "", VideoEncoderFactory := some 1, AudioEncoderFactory := some 2 }
    rfl rfl rfl (by decide)).1

/-- C1, counterexample: the stream server is initialized, a stream config is set and the
platform is not Windows; `CreateStream` fails for the video source `bad`; the run returns
that error having attempted `bad` only, so the video source `good` and the audio source `mic`
are never passed to `CreateStream` and no worker is started. -/
theorem addNewStreams_partial_failure_counterexample :
    readySvc.streamInitialized = true
      ∧ readySvc.streamConfig.isSome = true
      ∧ "good" ∈ videoNames (catalogAPI [("bad", 0), ("good", 1)] [("mic", 2)] rejectBad)
          emptyCatalog
      ∧ "mic" ∈ audioNames (catalogAPI [("bad", 0), ("good", 1)] [("mic", 2)] rejectBad) "linux"
          { Name := "", VideoEncoderFactory := some 1, AudioEncoderFactory := some 2 }
          emptyCatalog
      ∧ (addNewStreams (catalogAPI [("bad", 0), ("good", 1)] [("mic", 2)] rejectBad)
          "linux" readySvc).err = some "invalid stream config"
      ∧ attemptedNames (addNewStreams (catalogAPI [("bad", 0), ("good", 1)] [("mic", 2)] rejectBad)
          "linux" readySvc).trace = ["bad"]
      ∧ "good" ∉ attemptedNames
          (addNewStreams (catalogAPI [("bad", 0), ("good", 1)] [("mic", 2)] rejectBad)
            "linux" readySvc).trace
      ∧ "mic" ∉ attemptedNames
          (addNewStreams (catalogAPI [("bad", 0), ("good", 1)] [("mic", 2)] rejectBad)
            "linux" readySvc).trace
      ∧ startedStreams Media.video
          (addNewStreams (catalogAPI [("bad", 0), ("good", 1)] [("mic", 2)] rejectBad)
            "linux" readySvc).trace = []
      ∧ startedStreams Media.audio
          (addNewStreams (catalogAPI [("bad", 0), ("good", 1)] [("mic", 2)] rejectBad)
            "linux" readySvc).trace = [] := by
  decide

/-- C2. No duplicate worker. In every run of `addNewStreams`, for the video loop and for the
audio loop alike: the start method is called exactly for the (name, stream) pairs for which
that loop's `CreateStream` returned no error and `alreadyRegistered = false`; since the keys
of a source map are distinct, it is called at most once per name; and for a name for which
that loop's `CreateStream` reported `alreadyRegistered = true` it is not called. -/
theorem addNewStreams_no_duplicate_worker {σ : Type} (api : ServerAPI σ) (GOOS : String)
    (svc : webService σ)
    (hV : ∀ s, ((api.VideoSources s).map Prod.fst).Nodup)
    (hA : ∀ s, ((api.AudioSources s).map Prod.fst).Nodup) (k : Media) :
    startedStreams k (addNewStreams api GOOS svc).trace
        = freshStreams k (addNewStreams api GOOS svc).trace
      ∧ ((startedStreams k (addNewStreams api GOOS svc).trace).map Prod.fst).Nodup
      ∧ ∀ n ∈ registeredNames k (addNewStreams api GOOS svc).trace,
          n ∉ (startedStreams k (addNewStreams api GOOS svc).trace).map Prod.fst := by
  refine ⟨run_started_eq_fresh api GOOS svc k, ?_⟩
  rw [run_started_eq_fresh api GOOS svc k]
  rcases run_reads api GOOS svc k with ⟨-, -, h3, h4⟩ | ⟨sc, s1, s, -, -, h3, h4⟩
  · rw [h3, h4]
    simp
  · rw [h3, h4]
    have hnd := sources_nodup api hV hA k s1
    refine ⟨?_, sourceLoop_registered_not_fresh api k sc _ hnd s⟩
    exact ((fresh_sublist_created k _).trans
      (sourceLoop_created api k sc _ s).1.sublist).nodup hnd

/-- C2, witness: the theorem at a run where `cam` is both a video and an audio source, so
that the audio loop finds it already registered. -/
theorem addNewStreams_no_duplicate_worker_witness :
    startedStreams Media.audio
        (addNewStreams (fixedSourcesAPI [("cam", 0)] [("cam", 1), ("mic", 2)] rejectBad)
          "linux" readySvc).trace
      = freshStreams Media.audio
        (addNewStreams (fixedSourcesAPI [("cam", 0)] [("cam", 1), ("mic", 2)] rejectBad)
          "linux" readySvc).trace :=
  (addNewStreams_no_duplicate_worker
    (fixedSourcesAPI [("cam", 0)] [("cam", 1), ("mic", 2)] rejectBad) "linux" readySvc
    (fun _ => (by decide : (["cam"] : List String).Nodup))
    (fun _ => (by decide : (["cam", "mic"] : List String).Nodup)) Media.audio).1

/-- C8 (amended). On Windows, with the stream server initialized and a stream config set,
`addNewStreams` makes no `CreateStream` call from the video loop and no `StartVideoStream`
call, whatever the video sources are; the audio loop runs as on any platform: it visits the
audio names in iteration order and stops at the first `CreateStream` error, so the names it
creates are a prefix of the audio names, all of them when no error is returned; a
`CreateStream` call that returns an error is the last event of the run (no later audio source
is created or started) and its error is the error the run returns; an error returned is that
of the last event, a failed audio `CreateStream` call; there is none when there are no audio
sources; and an audio worker is started exactly for the newly created streams. -/
theorem addNewStreams_windows {σ : Type} (api : ServerAPI σ)
    (svc : webService σ) (ss : StreamServer σ) (s0 : σ) (sc : StreamConfig)
    (hinit : svc.streamServer = some ss) (hsrv : ss.Server = some s0)
    (hcfg : svc.streamConfig = some sc) :
    createdNames Media.video (addNewStreams api "windows" svc).trace = []
      ∧ startedStreams Media.video (addNewStreams api "windows" svc).trace = []
      ∧ createdNames Media.audio (addNewStreams api "windows" svc).trace
          <+: (api.AudioSources (api.RefreshAudioSources (api.RefreshVideoSources s0))).map
            Prod.fst
      ∧ ((addNewStreams api "windows" svc).err = none →
          createdNames Media.audio (addNewStreams api "windows" svc).trace
            = (api.AudioSources (api.RefreshAudioSources (api.RefreshVideoSources s0))).map
              Prod.fst)
      ∧ (∀ e, (addNewStreams api "windows" svc).err = some e →
          ∃ ev, (addNewStreams api "windows" svc).trace.getLast? = some ev
            ∧ ev.failedWith Media.audio e = true)
      ∧ (∀ pre ev post e, (addNewStreams api "windows" svc).trace = pre ++ ev :: post →
          ev.createErr = some e →
          post = [] ∧ (addNewStreams api "windows" svc).err = some e)
      ∧ ((api.AudioSources (api.RefreshAudioSources (api.RefreshVideoSources s0))) = [] →
          (addNewStreams api "windows" svc).err = none)
      ∧ startedStreams Media.audio (addNewStreams api "windows" svc).trace
          = freshStreams Media.audio (addNewStreams api "windows" svc).trace := by
  obtain ⟨herr, htrace, -⟩ := addNewStreams_init api "windows" svc ss s0 hinit hsrv
  have hstart := run_started_eq_fresh api "windows" svc
  obtain ⟨hw1, hw2, -⟩ := videoLoop_windows api sc (videoNames api s0)
    (api.RefreshAudioSources (api.RefreshVideoSources s0))
  have han : audioNames api "windows" sc s0
      = (api.AudioSources (api.RefreshAudioSources (api.RefreshVideoSources s0))).map
          Prod.fst := by
    have := hw2
    simp only [videoNames] at this
    simp only [audioNames, this]
  have hsil : ∀ {β : Type} (f : Event → Option β), Silent f →
      (addNewStreams api "windows" svc).trace.filterMap f
        = (sourceLoop api Media.audio sc (audioNames api "windows" sc s0)
            (api.RefreshAudioSources (api.RefreshVideoSources s0))).trace.filterMap f := by
    intro β f hf
    rw [htrace, hcfg, addNewStreamsOn_filterMap api "windows" f hf,
      videoLoop_windows_filterMap api f hf, hw1, hw2, audioLoop_eq_sourceLoop]
    simp
  have he : (addNewStreams api "windows" svc).err
      = (sourceLoop api Media.audio sc (audioNames api "windows" sc s0)
          (api.RefreshAudioSources (api.RefreshVideoSources s0))).err := by
    rw [herr, hcfg, addNewStreamsOn_err, hw1, hw2, audioLoop_eq_sourceLoop]
    simp
  obtain ⟨pre, htr⟩ := addNewStreamsOn_trace api "windows" sc s0
  rw [hw1, hw2, audioLoop_eq_sourceLoop] at htr
  simp only [if_true] at htr
  have hoth := sourceLoop_other api Media.audio sc Media.video (by decide)
    (audioNames api "windows" sc s0) (api.RefreshAudioSources (api.RefreshVideoSources s0))
  have hcr := sourceLoop_created api Media.audio sc (audioNames api "windows" sc s0)
    (api.RefreshAudioSources (api.RefreshVideoSources s0))
  have hlast : ∀ e, (addNewStreams api "windows" svc).err = some e →
      ∃ ev, (addNewStreams api "windows" svc).trace.getLast? = some ev
        ∧ ev.failedWith Media.audio e = true := by
    intro e h
    obtain ⟨ev, hl, hf⟩ := sourceLoop_err api Media.audio sc _ _ e (he ▸ h)
    exact ⟨ev, by rw [htrace, hcfg, htr, List.getLast?_append, hl]; rfl, hf⟩
  refine ⟨?_, ?_, ?_, ?_, hlast,
    nothing_after_failure _ _ (run_createErrors api "windows" svc)
      (fun e h => (hlast e h).imp fun ev hev => ⟨hev.1, failedWith_createErr _ _ _ hev.2⟩),
    ?_, hstart Media.audio⟩
  · simp only [createdNames] at hoth ⊢
    rw [hsil _ (silent_createdBy _), hoth.1]
  · simp only [startedStreams] at hoth ⊢
    rw [hsil _ (silent_started _), hoth.2.1]
  · simp only [createdNames] at hcr ⊢
    rw [hsil _ (silent_createdBy _), ← han]
    exact hcr.1
  · intro h
    simp only [createdNames] at hcr ⊢
    rw [hsil _ (silent_createdBy _), ← han]
    exact hcr.2 (he ▸ h)
  · intro hnil
    rw [he, han, hnil]
    rfl

/-- C8, witness: the theorem at a Windows run over two video and two audio sources. -/
theorem addNewStreams_windows_witness :
    createdNames Media.video
        (addNewStreams (catalogAPI [("cam", 0), ("good", 1)] [("bad", 2), ("mic", 3)] rejectBad)
          "windows" readySvc).trace = [] :=
  (addNewStreams_windows
    (catalogAPI [("cam", 0), ("good", 1)] [("bad", 2), ("mic", 3)] rejectBad) readySvc
    { Server := some emptyCatalog, HasStreams := false } emptyCatalog
    { Name := "", VideoEncoderFactory := some 1, AudioEncoderFactory := some 2 }
    rfl rfl rfl).1

/-- C8, counterexample: on Windows with a stream config set, `CreateStream` fails for the
audio source `bad`, the first one visited; the run returns that error and the audio source
`mic` is never created or started. -/
theorem addNewStreams_windows_audio_counterexample :
    readySvc.streamInitialized = true
      ∧ readySvc.streamConfig.isSome = true
      ∧ (catalogAPI [("cam", 0), ("good", 1)] [("bad", 2), ("mic", 3)] rejectBad).AudioSources
          ((catalogAPI [("cam", 0), ("good", 1)] [("bad", 2), ("mic", 3)]
              rejectBad).RefreshAudioSources
            ((catalogAPI [("cam", 0), ("good", 1)] [("bad", 2), ("mic", 3)]
              rejectBad).RefreshVideoSources emptyCatalog))
          = [("bad", 2), ("mic", 3)]
      ∧ (addNewStreams
          (catalogAPI [("cam", 0), ("good", 1)] [("bad", 2), ("mic", 3)] rejectBad)
          "windows" readySvc).err = some "invalid stream config"
      ∧ createdNames Media.audio (addNewStreams
          (catalogAPI [("cam", 0), ("good", 1)] [("bad", 2), ("mic", 3)] rejectBad)
          "windows" readySvc).trace = ["bad"]
      ∧ "mic" ∉ createdNames Media.audio (addNewStreams
          (catalogAPI [("cam", 0), ("good", 1)] [("bad", 2), ("mic", 3)] rejectBad)
          "windows" readySvc).trace
      ∧ startedStreams Media.audio (addNewStreams
          (catalogAPI [("cam", 0), ("good", 1)] [("bad", 2), ("mic", 3)] rejectBad)
          "windows" readySvc).trace = [] := by
  decide

section catalog
variable (rv ra : List (String × Nat)) (valid : StreamConfig → Bool)

theorem lookup_isSome_of_mem_keys (l : List (String × Nat)) (n : String)
    (h : n ∈ l.map Prod.fst) : ∃ st, l.lookup n = some st := by
  cases hl : l.lookup n with
  | some st => exact ⟨st, rfl⟩
  | none =>
    rw [List.lookup_eq_none_iff] at hl
    obtain ⟨p, hp, rfl⟩ := List.mem_map.mp h
    have := hl p hp
    simp at this

theorem not_mem_keys_of_lookup_none (l : List (String × Nat)) (n : String)
    (h : l.lookup n = none) : n ∉ l.map Prod.fst := by
  intro hm
  obtain ⟨st, hs⟩ := lookup_isSome_of_mem_keys l n hm
  rw [h] at hs
  cases hs

/-- The three outcomes of `CreateStream` on a catalog. -/
theorem Catalog.CreateStream_cases (config : StreamConfig) (name : String) (c : Catalog) :
    (name ∈ c.streams.map Prod.fst
        ∧ (Catalog.CreateStream valid config name c).1.err = none
        ∧ (Catalog.CreateStream valid config name c).1.alreadyRegistered = true
        ∧ (Catalog.CreateStream valid config name c).2 = c)
      ∨ (name ∉ c.streams.map Prod.fst
        ∧ (Catalog.CreateStream valid config name c).1.err = none
        ∧ (Catalog.CreateStream valid config name c).1.alreadyRegistered = false
        ∧ (Catalog.CreateStream valid config name c).2
            = { c with streams := c.streams ++ [(name, c.streams.length)] })
      ∨ (name ∉ c.streams.map Prod.fst
        ∧ (Catalog.CreateStream valid config name c).1.err ≠ none
        ∧ (Catalog.CreateStream valid config name c).2 = c) := by
  unfold Catalog.CreateStream
  cases hl : c.streams.lookup name with
  | some st =>
    left
    refine ⟨?_, rfl, rfl, rfl⟩
    by_contra hn
    have : c.streams.lookup name = none := by
      rw [List.lookup_eq_none_iff]
      intro p hp
      simp only [bne_iff_ne, ne_eq]
      rintro rfl
      exact hn (List.mem_map.mpr ⟨p, hp, rfl⟩)
    rw [this] at hl
    cases hl
  | none =>
    have hn := not_mem_keys_of_lookup_none _ _ hl
    by_cases hv : valid config = true
    · right; left
      simp [hv, hn]
    · right; right
      simp [hv, hn]

end catalog

section catalog2
variable (rv ra : List (String × Nat)) (valid : StreamConfig → Bool)

theorem catalog_start_streams (k : Media) (src st : Option Nat) (c : Catalog) :
    (k.start (catalogAPI rv ra valid) src st c).streams = c.streams
      ∧ (k.start (catalogAPI rv ra valid) src st c).VideoSources = c.VideoSources
      ∧ (k.start (catalogAPI rv ra valid) src st c).AudioSources = c.AudioSources := by
  cases k <;> exact ⟨rfl, rfl, rfl⟩

/-- What a loop over a catalog does to it: the source maps stay, the newly created names are
appended to the registered ones, they were not registered before and are pairwise distinct,
and after a run without error every visited name is registered. -/
theorem catalog_sourceLoop (k : Media) (sc : StreamConfig) (names : List String)
    (c : Catalog) :
    (sourceLoop (catalogAPI rv ra valid) k sc names c).state.VideoSources = c.VideoSources
      ∧ (sourceLoop (catalogAPI rv ra valid) k sc names c).state.AudioSources = c.AudioSources
      ∧ (sourceLoop (catalogAPI rv ra valid) k sc names c).state.streams.map Prod.fst
          = c.streams.map Prod.fst
            ++ (freshStreams k (sourceLoop (catalogAPI rv ra valid) k sc names c).trace).map
              Prod.fst
      ∧ (∀ n ∈ (freshStreams k (sourceLoop (catalogAPI rv ra valid) k sc names c).trace).map
            Prod.fst, n ∉ c.streams.map Prod.fst)
      ∧ ((freshStreams k (sourceLoop (catalogAPI rv ra valid) k sc names c).trace).map
            Prod.fst).Nodup
      ∧ ((sourceLoop (catalogAPI rv ra valid) k sc names c).err = none →
          ∀ n ∈ names,
            n ∈ (sourceLoop (catalogAPI rv ra valid) k sc names c).state.streams.map
              Prod.fst) := by
  induction names generalizing c with
  | nil => simp [sourceLoop, freshStreams]
  | cons name rest ih =>
    have hcs : (catalogAPI rv ra valid).CreateStream = Catalog.CreateStream valid := rfl
    simp only [sourceLoop, hcs]
    rcases Catalog.CreateStream_cases valid (k.config sc name) name c with
      ⟨hin, he, har, hst⟩ | ⟨hnin, he, har, hst⟩ | ⟨hnin, he, hst⟩
    · obtain ⟨i1, i2, i3, i4, i5, i6⟩ := ih c
      simp only [he, har, hst, ne_eq, not_true_eq_false, if_false, if_true]
      have hf : freshStreams k
          (Event.CreateStream k (k.config sc name) name
              (Catalog.CreateStream valid (k.config sc name) name c).1 ::
            (sourceLoop (catalogAPI rv ra valid) k sc rest c).trace)
          = freshStreams k (sourceLoop (catalogAPI rv ra valid) k sc rest c).trace := by
        simp [freshStreams, List.filterMap_cons, har]
      rw [hf]
      refine ⟨i1, i2, i3, i4, i5, ?_⟩
      intro h n hn
      rcases List.mem_cons.mp hn with rfl | hn
      · rw [i3]
        exact List.mem_append_left _ hin
      · exact i6 h n hn
    · have hst' := catalog_start_streams rv ra valid k
        ((k.sources (catalogAPI rv ra valid)
          { c with streams := c.streams ++ [(name, c.streams.length)] }).lookup name)
        (Catalog.CreateStream valid (k.config sc name) name c).1.stream
        { c with streams := c.streams ++ [(name, c.streams.length)] }
      obtain ⟨i1, i2, i3, i4, i5, i6⟩ := ih (k.start (catalogAPI rv ra valid)
        ((k.sources (catalogAPI rv ra valid)
          { c with streams := c.streams ++ [(name, c.streams.length)] }).lookup name)
        (Catalog.CreateStream valid (k.config sc name) name c).1.stream
        { c with streams := c.streams ++ [(name, c.streams.length)] })
      rw [hst'.1] at i3 i4
      rw [hst'.2.1] at i1
      rw [hst'.2.2] at i2
      simp only [he, har, hst, ne_eq, not_true_eq_false, if_false, Bool.false_eq_true]
      have hf : ∀ t : List Event, freshStreams k
          (Event.CreateStream k (k.config sc name) name
              (Catalog.CreateStream valid (k.config sc name) name c).1 ::
            k.startEvent name
              ((k.sources (catalogAPI rv ra valid)
                { c with streams := c.streams ++ [(name, c.streams.length)] }).lookup name)
              (Catalog.CreateStream valid (k.config sc name) name c).1.stream :: t)
          = (name, (Catalog.CreateStream valid (k.config sc name) name c).1.stream)
              :: freshStreams k t := by
        intro t
        simp [freshStreams, List.filterMap_cons, har, he]
      rw [hf]
      simp only [List.map_append, List.map_cons, List.map_nil, List.mem_append,
        List.mem_singleton, not_or] at i3 i4
      refine ⟨i1, i2, ?_, ?_, ?_, ?_⟩
      · rw [i3]
        simp
      · intro n hn
        rcases List.mem_cons.mp hn with rfl | hn
        · exact hnin
        · exact (i4 n hn).1
      · rw [List.map_cons, List.nodup_cons]
        exact ⟨fun h => (i4 name h).2 rfl, i5⟩
      · intro h n hn
        rw [i3]
        rcases List.mem_cons.mp hn with rfl | hn
        · simp
        · have := i6 h n hn
          rw [i3] at this
          exact this
    · have he' : ¬ (Catalog.CreateStream valid (k.config sc name) name c).1.err = none := he
      simp only [ne_eq, he', not_false_eq_true, if_true, hst]
      refine ⟨trivial, trivial, ?_, ?_, ?_, fun h => h.elim⟩
      · simp [freshStreams, List.filterMap_cons, he']
      · simp [freshStreams, List.filterMap_cons, he']
      · simp [freshStreams, List.filterMap_cons, he']

end catalog2

section catalog3
variable (rv ra : List (String × Nat)) (valid : StreamConfig → Bool)

/-- A loop over names that are all registered changes nothing and starts nothing. -/
theorem catalog_sourceLoop_registered (k : Media) (sc : StreamConfig) (names : List String)
    (c : Catalog) (hreg : ∀ n ∈ names, n ∈ c.streams.map Prod.fst) :
    (sourceLoop (catalogAPI rv ra valid) k sc names c).err = none
      ∧ (sourceLoop (catalogAPI rv ra valid) k sc names c).state = c
      ∧ ∀ k2, freshStreams k2 (sourceLoop (catalogAPI rv ra valid) k sc names c).trace = []
          ∧ startedStreams k2 (sourceLoop (catalogAPI rv ra valid) k sc names c).trace = [] := by
  induction names with
  | nil => simp [sourceLoop, freshStreams, startedStreams]
  | cons name rest ih =>
    have hcs : (catalogAPI rv ra valid).CreateStream = Catalog.CreateStream valid := rfl
    obtain ⟨i1, i2, i3⟩ := ih (fun n hn => hreg n (List.mem_cons_of_mem _ hn))
    have hin := hreg name (List.mem_cons_self _ _)
    rcases Catalog.CreateStream_cases valid (k.config sc name) name c with
      ⟨-, he, har, hst⟩ | ⟨hnin, -⟩ | ⟨hnin, -⟩
    · simp only [sourceLoop, hcs, he, har, hst, ne_eq, not_true_eq_false, if_false, if_true]
      refine ⟨i1, i2, fun k2 => ?_⟩
      obtain ⟨j1, j2⟩ := i3 k2
      simp only [freshStreams, startedStreams] at j1 j2 ⊢
      simp [List.filterMap_cons, har, j1, j2]
    · exact absurd hin hnin
    · exact absurd hin hnin

theorem catalog_refresh_fixed (c : Catalog) (hv : c.VideoSources = rv)
    (ha : c.AudioSources = ra) :
    (catalogAPI rv ra valid).RefreshAudioSources
      ((catalogAPI rv ra valid).RefreshVideoSources c) = c := by
  cases c
  simp only [catalogAPI] at hv ha ⊢
  subst hv ha
  rfl

theorem addNewStreamsOn_state {σ : Type} (api : ServerAPI σ) (GOOS : String)
    (sc : StreamConfig) (s0 : σ) :
    (addNewStreamsOn api GOOS (some sc) s0).state
      = if (videoLoop api GOOS sc (videoNames api s0)
            (api.RefreshAudioSources (api.RefreshVideoSources s0))).err = none then
          (audioLoop api sc (audioNames api GOOS sc s0)
            (videoLoop api GOOS sc (videoNames api s0)
              (api.RefreshAudioSources (api.RefreshVideoSources s0))).state).state
        else (videoLoop api GOOS sc (videoNames api s0)
            (api.RefreshAudioSources (api.RefreshVideoSources s0))).state := by
  by_cases h : (videoLoop api GOOS sc
      (List.map Prod.fst (api.VideoSources (api.RefreshAudioSources (api.RefreshVideoSources s0))))
      (api.RefreshAudioSources (api.RefreshVideoSources s0))).err = none
  · simp [addNewStreamsOn, videoNames, audioNames, h]
  · simp [addNewStreamsOn, videoNames, audioNames, h]

/-- The video loop over a catalog, on any platform: the facts of `catalog_sourceLoop`, with
registration of every visited name only off Windows. -/
theorem catalog_videoLoop (GOOS : String) (sc : StreamConfig) (names : List String)
    (c : Catalog) :
    (videoLoop (catalogAPI rv ra valid) GOOS sc names c).state.VideoSources = c.VideoSources
      ∧ (videoLoop (catalogAPI rv ra valid) GOOS sc names c).state.AudioSources
          = c.AudioSources
      ∧ (videoLoop (catalogAPI rv ra valid) GOOS sc names c).state.streams.map Prod.fst
          = c.streams.map Prod.fst
            ++ (freshStreams Media.video
                (videoLoop (catalogAPI rv ra valid) GOOS sc names c).trace).map Prod.fst
      ∧ (∀ n ∈ (freshStreams Media.video
            (videoLoop (catalogAPI rv ra valid) GOOS sc names c).trace).map Prod.fst,
          n ∉ c.streams.map Prod.fst)
      ∧ ((freshStreams Media.video
            (videoLoop (catalogAPI rv ra valid) GOOS sc names c).trace).map Prod.fst).Nodup
      ∧ (GOOS ≠ "windows" →
          (videoLoop (catalogAPI rv ra valid) GOOS sc names c).err = none →
          ∀ n ∈ names,
            n ∈ (videoLoop (catalogAPI rv ra valid) GOOS sc names c).state.streams.map
              Prod.fst)
      ∧ freshStreams Media.audio
          (videoLoop (catalogAPI rv ra valid) GOOS sc names c).trace = []
      ∧ startedStreams Media.audio
          (videoLoop (catalogAPI rv ra valid) GOOS sc names c).trace = []
      ∧ startedStreams Media.video
          (videoLoop (catalogAPI rv ra valid) GOOS sc names c).trace
        = freshStreams Media.video
          (videoLoop (catalogAPI rv ra valid) GOOS sc names c).trace := by
  by_cases hos : GOOS = "windows"
  · subst hos
    obtain ⟨-, h2, -⟩ := videoLoop_windows (catalogAPI rv ra valid) sc names c
    have hf := fun k => videoLoop_windows_filterMap (catalogAPI rv ra valid) _
      (silent_fresh k) sc names c
    have hs := fun k => videoLoop_windows_filterMap (catalogAPI rv ra valid) _
      (silent_started k) sc names c
    simp only [freshStreams, startedStreams]
    rw [h2, hf, hf, hs, hs]
    simp
  · rw [videoLoop_eq_sourceLoop _ GOOS sc hos]
    obtain ⟨i1, i2, i3, i4, i5, i6⟩ := catalog_sourceLoop rv ra valid Media.video sc names c
    obtain ⟨-, o2, o3, -⟩ := sourceLoop_other (catalogAPI rv ra valid) Media.video sc
      Media.audio (by decide) names c
    exact ⟨i1, i2, i3, i4, i5, fun _ => i6, o3, o2, sourceLoop_started _ _ _ _ _⟩

end catalog3

section catalog4
variable (rv ra : List (String × Nat)) (valid : StreamConfig → Bool)

/-- A run with a stream config over a catalog that returns no error: the directory holds the
refreshed sources, every audio name (and off Windows every video name) is registered, distinct
registered names stay distinct, and no name got two workers. -/
theorem catalog_firstRun (GOOS : String) (sc : StreamConfig) (s0 : Catalog)
    (h : (addNewStreamsOn (catalogAPI rv ra valid) GOOS (some sc) s0).err = none) :
    (addNewStreamsOn (catalogAPI rv ra valid) GOOS (some sc) s0).state.VideoSources = rv
      ∧ (addNewStreamsOn (catalogAPI rv ra valid) GOOS (some sc) s0).state.AudioSources = ra
      ∧ (GOOS ≠ "windows" → ∀ n ∈ rv.map Prod.fst,
          n ∈ (addNewStreamsOn (catalogAPI rv ra valid) GOOS (some sc) s0).state.streams.map
            Prod.fst)
      ∧ (∀ n ∈ ra.map Prod.fst,
          n ∈ (addNewStreamsOn (catalogAPI rv ra valid) GOOS (some sc) s0).state.streams.map
            Prod.fst)
      ∧ ((s0.streams.map Prod.fst).Nodup →
          ((addNewStreamsOn (catalogAPI rv ra valid) GOOS (some sc) s0).state.streams.map
            Prod.fst).Nodup)
      ∧ ((startedStreams Media.video
              (addNewStreamsOn (catalogAPI rv ra valid) GOOS (some sc) s0).trace).map Prod.fst
          ++ (startedStreams Media.audio
              (addNewStreamsOn (catalogAPI rv ra valid) GOOS (some sc) s0).trace).map
            Prod.fst).Nodup := by
  have herr := addNewStreamsOn_err (catalogAPI rv ra valid) GOOS sc s0
  have hstate := addNewStreamsOn_state (catalogAPI rv ra valid) GOOS sc s0
  have hsv := addNewStreamsOn_filterMap (catalogAPI rv ra valid) GOOS _
    (silent_started Media.video) sc s0
  have hsa := addNewStreamsOn_filterMap (catalogAPI rv ra valid) GOOS _
    (silent_started Media.audio) sc s0
  obtain ⟨v1, v2, v3, v4, v5, v6, v7, v8, v9⟩ := catalog_videoLoop rv ra valid GOOS sc
    (videoNames (catalogAPI rv ra valid) s0)
    ((catalogAPI rv ra valid).RefreshAudioSources
      ((catalogAPI rv ra valid).RefreshVideoSources s0))
  have hvn : videoNames (catalogAPI rv ra valid) s0 = rv.map Prod.fst := rfl
  have han : audioNames (catalogAPI rv ra valid) GOOS sc s0 = ra.map Prod.fst := by
    have : audioNames (catalogAPI rv ra valid) GOOS sc s0
        = (videoLoop (catalogAPI rv ra valid) GOOS sc (videoNames (catalogAPI rv ra valid) s0)
            ((catalogAPI rv ra valid).RefreshAudioSources
              ((catalogAPI rv ra valid).RefreshVideoSources s0))).state.AudioSources.map
            Prod.fst := rfl
    rw [this, v2]
    rfl
  have hve : (videoLoop (catalogAPI rv ra valid) GOOS sc
      (videoNames (catalogAPI rv ra valid) s0)
      ((catalogAPI rv ra valid).RefreshAudioSources
        ((catalogAPI rv ra valid).RefreshVideoSources s0))).err = none := by
    by_contra hne
    rw [herr, if_neg hne] at h
    exact hne h
  rw [hstate, if_pos hve]
  simp only [startedStreams]
  rw [hsv, hsa, if_pos hve, if_pos hve]
  rw [herr, if_pos hve] at h
  rw [audioLoop_eq_sourceLoop] at h ⊢
  obtain ⟨a1, a2, a3, a4, a5, a6⟩ := catalog_sourceLoop rv ra valid Media.audio sc
    (audioNames (catalogAPI rv ra valid) GOOS sc s0)
    (videoLoop (catalogAPI rv ra valid) GOOS sc (videoNames (catalogAPI rv ra valid) s0)
      ((catalogAPI rv ra valid).RefreshAudioSources
        ((catalogAPI rv ra valid).RefreshVideoSources s0))).state
  obtain ⟨-, o2, -, -⟩ := sourceLoop_other (catalogAPI rv ra valid) Media.audio sc
    Media.video (by decide) (audioNames (catalogAPI rv ra valid) GOOS sc s0)
    (videoLoop (catalogAPI rv ra valid) GOOS sc (videoNames (catalogAPI rv ra valid) s0)
      ((catalogAPI rv ra valid).RefreshAudioSources
        ((catalogAPI rv ra valid).RefreshVideoSources s0))).state
  have a9 := sourceLoop_started (catalogAPI rv ra valid) Media.audio sc
    (audioNames (catalogAPI rv ra valid) GOOS sc s0)
    (videoLoop (catalogAPI rv ra valid) GOOS sc (videoNames (catalogAPI rv ra valid) s0)
      ((catalogAPI rv ra valid).RefreshAudioSources
        ((catalogAPI rv ra valid).RefreshVideoSources s0))).state
  simp only [startedStreams, freshStreams] at v3 v4 v5 v7 v8 v9 a3 a4 a5 a9 o2
  have hs0 : ((catalogAPI rv ra valid).RefreshAudioSources
      ((catalogAPI rv ra valid).RefreshVideoSources s0)).streams = s0.streams := rfl
  rw [hs0] at v3 v4
  refine ⟨?_, ?_, ?_, ?_, ?_, ?_⟩
  · rw [a1, v1]; rfl
  · rw [a2, v2]; rfl
  · intro hos n hn
    rw [a3]
    exact List.mem_append_left _ (v6 hos hve n (hvn ▸ hn))
  · intro n hn
    exact a6 h n (han ▸ hn)
  · intro hnd
    rw [a3, v3]
    refine List.Nodup.append (List.Nodup.append hnd v5 ?_) a5 ?_
    · intro n hn1 hn2
      exact v4 n hn2 hn1
    · intro n hn1 hn2
      rw [v3] at a4
      exact a4 n hn2 hn1
  · rw [v8, o2, v9, a9]
    simp only [List.append_nil, List.nil_append]
    refine List.Nodup.append v5 a5 ?_
    intro n hn1 hn2
    rw [v3] at a4
    exact a4 n hn2 (List.mem_append_right _ hn1)

/-- A run with a stream config over a catalog in which every name to visit is registered:
nothing is created, nothing is started, the catalog is unchanged. -/
theorem catalog_secondRun (GOOS : String) (sc : StreamConfig) (c : Catalog)
    (hv : c.VideoSources = rv) (ha : c.AudioSources = ra)
    (hrv : GOOS ≠ "windows" → ∀ n ∈ rv.map Prod.fst, n ∈ c.streams.map Prod.fst)
    (hra : ∀ n ∈ ra.map Prod.fst, n ∈ c.streams.map Prod.fst) :
    (addNewStreamsOn (catalogAPI rv ra valid) GOOS (some sc) c).err = none
      ∧ (addNewStreamsOn (catalogAPI rv ra valid) GOOS (some sc) c).state = c
      ∧ ∀ k, freshStreams k (addNewStreamsOn (catalogAPI rv ra valid) GOOS (some sc) c).trace
            = []
          ∧ startedStreams k
              (addNewStreamsOn (catalogAPI rv ra valid) GOOS (some sc) c).trace = [] := by
  have herr := addNewStreamsOn_err (catalogAPI rv ra valid) GOOS sc c
  have hstate := addNewStreamsOn_state (catalogAPI rv ra valid) GOOS sc c
  have href := catalog_refresh_fixed rv ra valid c hv ha
  have hvn : videoNames (catalogAPI rv ra valid) c = rv.map Prod.fst := rfl
  have hvl : (videoLoop (catalogAPI rv ra valid) GOOS sc (rv.map Prod.fst) c).err = none
      ∧ (videoLoop (catalogAPI rv ra valid) GOOS sc (rv.map Prod.fst) c).state = c
      ∧ ∀ k, freshStreams k (videoLoop (catalogAPI rv ra valid) GOOS sc (rv.map Prod.fst)
            c).trace = []
          ∧ startedStreams k (videoLoop (catalogAPI rv ra valid) GOOS sc (rv.map Prod.fst)
            c).trace = [] := by
    by_cases hos : GOOS = "windows"
    · subst hos
      obtain ⟨w1, w2, -⟩ := videoLoop_windows (catalogAPI rv ra valid) sc (rv.map Prod.fst) c
      exact ⟨w1, w2, fun k =>
        ⟨videoLoop_windows_filterMap (catalogAPI rv ra valid) _ (silent_fresh k) sc _ c,
          videoLoop_windows_filterMap (catalogAPI rv ra valid) _ (silent_started k) sc _ c⟩⟩
    · rw [videoLoop_eq_sourceLoop _ GOOS sc hos]
      exact catalog_sourceLoop_registered rv ra valid Media.video sc _ c (hrv hos)
  obtain ⟨w1, w2, w3⟩ := hvl
  have han : audioNames (catalogAPI rv ra valid) GOOS sc c = ra.map Prod.fst := by
    have : audioNames (catalogAPI rv ra valid) GOOS sc c
        = (videoLoop (catalogAPI rv ra valid) GOOS sc (videoNames (catalogAPI rv ra valid) c)
            ((catalogAPI rv ra valid).RefreshAudioSources
              ((catalogAPI rv ra valid).RefreshVideoSources c))).state.AudioSources.map
            Prod.fst := rfl
    rw [this, href, hvn, w2, ha]
  obtain ⟨x1, x2, x3⟩ := catalog_sourceLoop_registered rv ra valid Media.audio sc _ c hra
  rw [href, hvn, han, w1, w2, audioLoop_eq_sourceLoop] at herr hstate
  simp only [if_true] at herr hstate
  refine ⟨herr.trans x1, hstate.trans x2, fun k => ?_⟩
  simp only [freshStreams, startedStreams] at w3 x3 ⊢
  rw [addNewStreamsOn_filterMap _ GOOS _ (silent_fresh k),
    addNewStreamsOn_filterMap _ GOOS _ (silent_started k)]
  rw [href, hvn, han, w1, w2, audioLoop_eq_sourceLoop]
  simp only [if_true, (w3 k).1, (w3 k).2, (x3 k).1, (x3 k).2, List.append_nil, and_self]

end catalog4

/-- C3. Refresh is idempotent on an unchanged resource set. The server is a catalog that
registers a name on a successful `CreateStream` and reports `alreadyRegistered = true` for a
registered name. When a call of `addNewStreams` returns no error, a second call with the
same resource set and stream config returns no error, leaves the service as it is (no stream
is registered and no worker recorded), creates no stream and starts no worker; registered
names that were distinct before the two calls are distinct after them, and across both
calls no source name has two workers started. -/
theorem addNewStreams_twice_idempotent (rv ra : List (String × Nat))
    (valid : StreamConfig → Bool) (GOOS : String) (svc : webService Catalog)
    (hwf : (registeredIn svc).Nodup)
    (h1 : (addNewStreams (catalogAPI rv ra valid) GOOS svc).err = none) :
    (addNewStreams (catalogAPI rv ra valid) GOOS
        (addNewStreams (catalogAPI rv ra valid) GOOS svc).svc).err = none
      ∧ (addNewStreams (catalogAPI rv ra valid) GOOS
          (addNewStreams (catalogAPI rv ra valid) GOOS svc).svc).svc
        = (addNewStreams (catalogAPI rv ra valid) GOOS svc).svc
      ∧ registeredIn (addNewStreams (catalogAPI rv ra valid) GOOS
          (addNewStreams (catalogAPI rv ra valid) GOOS svc).svc).svc
        = registeredIn (addNewStreams (catalogAPI rv ra valid) GOOS svc).svc
      ∧ workersIn (addNewStreams (catalogAPI rv ra valid) GOOS
          (addNewStreams (catalogAPI rv ra valid) GOOS svc).svc).svc
        = workersIn (addNewStreams (catalogAPI rv ra valid) GOOS svc).svc
      ∧ (∀ k, freshStreams k (addNewStreams (catalogAPI rv ra valid) GOOS
              (addNewStreams (catalogAPI rv ra valid) GOOS svc).svc).trace = []
          ∧ startedStreams k (addNewStreams (catalogAPI rv ra valid) GOOS
              (addNewStreams (catalogAPI rv ra valid) GOOS svc).svc).trace = [])
      ∧ (registeredIn (addNewStreams (catalogAPI rv ra valid) GOOS
          (addNewStreams (catalogAPI rv ra valid) GOOS svc).svc).svc).Nodup
      ∧ ((startedStreams Media.video
              ((addNewStreams (catalogAPI rv ra valid) GOOS svc).trace
                ++ (addNewStreams (catalogAPI rv ra valid) GOOS
                  (addNewStreams (catalogAPI rv ra valid) GOOS svc).svc).trace)).map Prod.fst
          ++ (startedStreams Media.audio
              ((addNewStreams (catalogAPI rv ra valid) GOOS svc).trace
                ++ (addNewStreams (catalogAPI rv ra valid) GOOS
                  (addNewStreams (catalogAPI rv ra valid) GOOS svc).svc).trace)).map
            Prod.fst).Nodup := by
  -- it is enough to have the second call's facts and the first call's two invariants
  suffices hmain :
      (addNewStreams (catalogAPI rv ra valid) GOOS
          (addNewStreams (catalogAPI rv ra valid) GOOS svc).svc).err = none
        ∧ (addNewStreams (catalogAPI rv ra valid) GOOS
            (addNewStreams (catalogAPI rv ra valid) GOOS svc).svc).svc
          = (addNewStreams (catalogAPI rv ra valid) GOOS svc).svc
        ∧ (∀ k, freshStreams k (addNewStreams (catalogAPI rv ra valid) GOOS
                (addNewStreams (catalogAPI rv ra valid) GOOS svc).svc).trace = []
            ∧ startedStreams k (addNewStreams (catalogAPI rv ra valid) GOOS
                (addNewStreams (catalogAPI rv ra valid) GOOS svc).svc).trace = [])
        ∧ (registeredIn (addNewStreams (catalogAPI rv ra valid) GOOS svc).svc).Nodup
        ∧ ((startedStreams Media.video
                (addNewStreams (catalogAPI rv ra valid) GOOS svc).trace).map Prod.fst
            ++ (startedStreams Media.audio
                (addNewStreams (catalogAPI rv ra valid) GOOS svc).trace).map
              Prod.fst).Nodup by
    obtain ⟨m1, m2, m3, m4, m5⟩ := hmain
    refine ⟨m1, m2, by rw [m2], by rw [m2], m3, by rw [m2]; exact m4, ?_⟩
    have e1 := (m3 Media.video).2
    have e2 := (m3 Media.audio).2
    simp only [startedStreams] at e1 e2 m5 ⊢
    rw [List.filterMap_append, List.filterMap_append, e1, e2]
    simpa using m5
  by_cases hi : svc.streamInitialized = false
  · have hu := fun {β : Type} (f : Event → Option β) (hf : Silent f) =>
      addNewStreams_uninit_filterMap (catalogAPI rv ra valid) GOOS f hf svc hi
    have hsvc := (hu _ silent_attempted).2.2
    rw [hsvc]
    refine ⟨(hu _ silent_attempted).2.1, hsvc, fun k => ⟨(hu _ (silent_fresh k)).1,
      (hu _ (silent_started k)).1⟩, hwf, ?_⟩
    simp only [startedStreams]
    rw [(hu _ (silent_started _)).1, (hu _ (silent_started _)).1]
    exact List.nodup_nil
  obtain ⟨ss, s0, hinit, hsrv⟩ : ∃ ss s0, svc.streamServer = some ss ∧ ss.Server = some s0 := by
    unfold webService.streamInitialized at hi
    cases hs : svc.streamServer with
    | none => simp [hs] at hi
    | some ss =>
      cases hv : ss.Server with
      | none => simp [hs, hv] at hi
      | some s0 => exact ⟨ss, s0, rfl, hv⟩
  obtain ⟨herr, htrace, hsvc⟩ := addNewStreams_init (catalogAPI rv ra valid) GOOS svc ss s0
    hinit hsrv
  have hwf0 : (s0.streams.map Prod.fst).Nodup := by
    simpa [registeredIn, hinit, hsrv] using hwf
  obtain ⟨herr2, htrace2, hsvc2⟩ := addNewStreams_init (catalogAPI rv ra valid) GOOS
    (addNewStreams (catalogAPI rv ra valid) GOOS svc).svc
    { ss with Server := some (addNewStreamsOn (catalogAPI rv ra valid) GOOS svc.streamConfig
        s0).state }
    (addNewStreamsOn (catalogAPI rv ra valid) GOOS svc.streamConfig s0).state
    (by rw [hsvc]) rfl
  have hcfg2 : (addNewStreams (catalogAPI rv ra valid) GOOS svc).svc.streamConfig
      = svc.streamConfig := by rw [hsvc]
  rw [hcfg2] at herr2 htrace2 hsvc2
  rw [herr2, htrace2, hsvc2, htrace]
  rw [herr] at h1
  have hreg : registeredIn (addNewStreams (catalogAPI rv ra valid) GOOS svc).svc
      = (addNewStreamsOn (catalogAPI rv ra valid) GOOS svc.streamConfig s0).state.streams.map
          Prod.fst := by
    rw [hsvc]; rfl
  rw [hreg]
  cases hcfg : svc.streamConfig with
  | none =>
    rw [hcfg] at h1
    have hst : ∀ c : Catalog,
        (addNewStreamsOn (catalogAPI rv ra valid) GOOS none c).state
          = (catalogAPI rv ra valid).RefreshAudioSources
              ((catalogAPI rv ra valid).RefreshVideoSources c)
        ∧ (addNewStreamsOn (catalogAPI rv ra valid) GOOS none c).err = none := by
      intro c
      simp only [addNewStreamsOn]
      split_ifs <;> exact ⟨rfl, rfl⟩
    have hf := fun {β : Type} (f : Event → Option β) (hf : Silent f) (c : Catalog) =>
      addNewStreamsOn_none_filterMap (catalogAPI rv ra valid) GOOS f hf c
    have hidem : (addNewStreamsOn (catalogAPI rv ra valid) GOOS none
        (addNewStreamsOn (catalogAPI rv ra valid) GOOS none s0).state).state
        = (addNewStreamsOn (catalogAPI rv ra valid) GOOS none s0).state := by
      rw [(hst _).1, (hst s0).1]
      rfl
    refine ⟨(hst _).2, ?_, fun k => ⟨hf _ (silent_fresh k) _, hf _ (silent_started k) _⟩,
      ?_, ?_⟩
    · rw [hsvc, hcfg, hidem]
    · rw [(hst s0).1]
      exact hwf0
    · simp only [startedStreams]
      rw [hf _ (silent_started _), hf _ (silent_started _)]
      exact List.nodup_nil
  | some sc =>
    rw [hcfg] at h1
    obtain ⟨f1, f2, f3, f4, f5, f6⟩ := catalog_firstRun rv ra valid GOOS sc s0 h1
    obtain ⟨g1, g2, g3⟩ := catalog_secondRun rv ra valid GOOS sc
      (addNewStreamsOn (catalogAPI rv ra valid) GOOS (some sc) s0).state f1 f2 f3 f4
    refine ⟨g1, ?_, g3, f5 hwf0, f6⟩
    rw [hsvc, hcfg, g2]

/-- C3, witness: the theorem at two runs over the video source `cam` and the audio sources
`cam` and `mic`, starting from an empty catalog. -/
theorem addNewStreams_twice_idempotent_witness :
    (addNewStreams (catalogAPI [("cam", 0)] [("cam", 1), ("mic", 2)] rejectBad) "linux"
        (addNewStreams (catalogAPI [("cam", 0)] [("cam", 1), ("mic", 2)] rejectBad) "linux"
          readySvc).svc).err = none :=
  (addNewStreams_twice_idempotent [("cam", 0)] [("cam", 1), ("mic", 2)] rejectBad "linux"
    readySvc (by decide) (by decide)).1

end Web

namespace FakeCamera

theorem lookup_filter_ne_self (l : List (Nat × Nat × Nat)) (id : Nat) :
    (l.filter (fun p => p.1 != id)).lookup id = none := by
  rw [List.lookup_eq_none_iff]
  intro p hp
  have := (List.mem_filter.mp hp).2
  simp only [bne_iff_ne, ne_eq] at this ⊢
  exact fun h => this h.symm

theorem lookup_filter_ne_other (l : List (Nat × Nat × Nat)) (id id2 : Nat) (h : id2 ≠ id) :
    (l.filter (fun p => p.1 != id)).lookup id2 = l.lookup id2 := by
  induction l with
  | nil => rfl
  | cons p t ih =>
    obtain ⟨a, b⟩ := p
    by_cases ha : a = id
    · subst ha
      have h1 : (id2 == a) = false := by simpa using h
      simp [List.filter_cons, List.lookup_cons, h1, ih]
    · have h1 : (a != id) = true := by simpa using ha
      simp only [List.filter_cons, h1, if_true, List.lookup_cons, ih]

/-- C4. On a camera with RTP passthrough enabled (the setting of the test), `Unsubscribe`
with an ID that no Active subscription holds fails with "id not found" and changes nothing,
so every existing subscription stays Active with a termination signal that reports what it
did before; `Unsubscribe` with the ID of an Active subscription returns no error, after
which that subscription's termination signal reports `Canceled`, the ID is no longer found,
and every other subscription and signal is as before. -/
theorem Unsubscribe_not_found_or_canceled (c : Camera) (henabled : c.RTPPassthrough = true)
    (id : Nat) :
    (c.bufAndCBByID.lookup id = none →
        c.Unsubscribe id = (some Error.idNotFound, c))
      ∧ (∀ b, c.bufAndCBByID.lookup id = some b →
          (c.Unsubscribe id).1 = none
            ∧ (c.Unsubscribe id).2.TerminatedErr id = some ContextError.Canceled
            ∧ ((c.Unsubscribe id).2.Unsubscribe id).1 = some Error.idNotFound
            ∧ ∀ id2, id2 ≠ id →
                (c.Unsubscribe id).2.bufAndCBByID.lookup id2 = c.bufAndCBByID.lookup id2
                  ∧ (c.Unsubscribe id).2.TerminatedErr id2 = c.TerminatedErr id2) := by
  constructor
  · intro h
    simp [Camera.Unsubscribe, henabled, h]
  · intro b h
    have hu : c.Unsubscribe id = (none,
        { c with
          bufAndCBByID := c.bufAndCBByID.filter (fun p => p.1 != id)
          terminated := id :: c.terminated }) := by
      simp [Camera.Unsubscribe, henabled, h]
    rw [hu]
    refine ⟨rfl, ?_, ?_, ?_⟩
    · simp [Camera.TerminatedErr]
    · simp [Camera.Unsubscribe, henabled, lookup_filter_ne_self]
    · intro id2 hne
      refine ⟨lookup_filter_ne_other _ _ _ hne, ?_⟩
      simp [Camera.TerminatedErr, hne]

/-- C4, witness: the scenario of the test. A camera with passthrough enabled has one
subscription (ID 1, buffer 512); unsubscribing the unrelated ID 999 fails with "id not
found" and leaves the camera as it is; unsubscribing ID 1 succeeds and its termination
signal then reports `Canceled`. -/
theorem Unsubscribe_not_found_or_canceled_witness :
    ((NewCamera { RTPPassthrough := true }).SubscribeRTP 512 7).2.Unsubscribe 999
        = (some Error.idNotFound, ((NewCamera { RTPPassthrough := true }).SubscribeRTP 512 7).2)
      ∧ (((NewCamera { RTPPassthrough := true }).SubscribeRTP 512 7).2.Unsubscribe 1).1 = none
      ∧ (((NewCamera { RTPPassthrough := true }).SubscribeRTP 512 7).2.Unsubscribe
          1).2.TerminatedErr 1 = some ContextError.Canceled :=
  ⟨(Unsubscribe_not_found_or_canceled
      ((NewCamera { RTPPassthrough := true }).SubscribeRTP 512 7).2 rfl 999).1 (by decide),
    ((Unsubscribe_not_found_or_canceled
      ((NewCamera { RTPPassthrough := true }).SubscribeRTP 512 7).2 rfl 1).2 (512, 7)
        (by decide)).1,
    ((Unsubscribe_not_found_or_canceled
      ((NewCamera { RTPPassthrough := true }).SubscribeRTP 512 7).2 rfl 1).2 (512, 7)
        (by decide)).2.1⟩

/-- The passthrough scenario of `TestRTPPassthrough`, enabled case: subscribe, unsubscribe an
unrelated ID, unsubscribe the real ID, then subscribe again and close. -/
theorem passthrough_enabled_scenario :
    ((NewCamera { RTPPassthrough := true }).SubscribeRTP 512 7).1 = ({ ID := 1 }, none)
      ∧ (((NewCamera { RTPPassthrough := true }).SubscribeRTP 512 7).2.Unsubscribe 999).1
          = some Error.idNotFound
      ∧ (((NewCamera { RTPPassthrough := true }).SubscribeRTP 512 7).2.Unsubscribe 999).2.TerminatedErr
          1 = none
      ∧ (((NewCamera { RTPPassthrough := true }).SubscribeRTP 512 7).2.Unsubscribe 1).1 = none
      ∧ (((NewCamera { RTPPassthrough := true }).SubscribeRTP 512 7).2.Unsubscribe 1).2.TerminatedErr
          1 = some ContextError.Canceled
      ∧ (((((NewCamera { RTPPassthrough := true }).SubscribeRTP 512 7).2.Unsubscribe
            1).2.SubscribeRTP 512 8).2.Close).TerminatedErr 2 = some ContextError.Canceled := by
  decide

/-- C5. Feature gate. On a camera whose RTP passthrough is not enabled, as `NewCamera` builds
it from a config without `RTPPassthrough`, `SubscribeRTP` with any buffer capacity and
callback returns `NilSubscription` with `ErrRTPPassthroughNotEnabled`, and `Unsubscribe` with
any ID returns `ErrRTPPassthroughNotEnabled`; both leave the camera as it is, so no
subscription is created. -/
theorem passthrough_not_enabled (c : Camera) (hdisabled : c.RTPPassthrough = false)
    (bufferSize callback id : Nat) :
    c.SubscribeRTP bufferSize callback
        = ((NilSubscription, some Error.ErrRTPPassthroughNotEnabled), c)
      ∧ c.Unsubscribe id = (some Error.ErrRTPPassthroughNotEnabled, c)
      ∧ (c.SubscribeRTP bufferSize callback).2.bufAndCBByID = c.bufAndCBByID
      ∧ (c.Unsubscribe id).2.bufAndCBByID = c.bufAndCBByID := by
  simp [Camera.SubscribeRTP, Camera.Unsubscribe, hdisabled]

/-- C5, witness: the scenario of the test, on `NewCamera` with an empty config. -/
theorem passthrough_not_enabled_witness :
    (NewCamera { RTPPassthrough := false }).SubscribeRTP 512 7
        = ((NilSubscription, some Error.ErrRTPPassthroughNotEnabled),
            NewCamera { RTPPassthrough := false })
      ∧ (NewCamera { RTPPassthrough := false }).Unsubscribe 999
        = (some Error.ErrRTPPassthroughNotEnabled, NewCamera { RTPPassthrough := false }) :=
  ⟨(passthrough_not_enabled (NewCamera { RTPPassthrough := false }) rfl 512 7 999).1,
    (passthrough_not_enabled (NewCamera { RTPPassthrough := false }) rfl 512 7 999).2.1⟩

end FakeCamera

